import Mathlib

/-!
# notification_register.c : manifest-to-row synchronisation

A shallow embedding of `src/notification_register.c`, the package-manager
plugin that keeps the `notification_setting` table in step with the
`notification` sections of a package manifest.

* libxml2 documents are finite trees (`xmlNode`, `xmlDoc`); the accessors used
  by the plugin (`xmlDocGetRootElement`, `xmlFirstElementChild`, `xmlGetProp`,
  `xmlNodeGetContent`, `xmlStrcmp`) follow their libxml2 contracts.
* The SQLite database is a `World`: the global handle `databaseInfo.pHandle`,
  the content of the `notification_setting` table, and a script `faults` that
  fixes, call by call, which of the coming library calls report an error
  (`db_util_open`, `lstat`, `calloc`, `sqlite3_prepare_v2`,
  `sqlite3_bind_text`, `sqlite3_step`, `sqlite3_exec`). Failures that follow
  from the state are not scripted: a statement on a `NULL` handle or on a
  missing table does not compile, an `INSERT` of a present `appid` violates
  the primary key, a `BEGIN` inside a transaction fails.
* C strings are `String`, nullable pointers are `Option`, `int` status codes
  are `Int`; the hooks take a non-`NULL` package id.
* Not modelled: freeing memory and finalizing statements (no effect on the
  state above), logging, and allocation failures inside libxml2, which the
  source does not check either.
-/

set_option autoImplicit false

namespace NotificationParser

/-! ## errno and SQLite result codes -/

def EINVAL : Int := 22
def ENOMEM : Int := 12
def EIO : Int := 5

def SQLITE_OK : Int := 0
def SQLITE_ERROR : Int := 1
def SQLITE_IOERR : Int := 10
def SQLITE_CONSTRAINT : Int := 19
def SQLITE_MISUSE : Int := 21
def SQLITE_ROW : Int := 100
def SQLITE_DONE : Int := 101

/-! ## libxml2 trees -/

inductive xmlElementType where
  | XML_ELEMENT_NODE
  | XML_TEXT_NODE
  | XML_CDATA_SECTION_NODE
  | XML_PI_NODE
  | XML_COMMENT_NODE
  deriving DecidableEq, Repr

/-- A libxml2 node: its kind, `name`, attribute list (`properties`, only
meaningful on elements), own `content` (text, CDATA, comment and PI nodes) and
`children` in sibling order. -/
inductive xmlNode where
  | mk (type : xmlElementType) (name : String) (properties : List (String × String))
      (content : Option String) (children : List xmlNode)

namespace xmlNode

def type : xmlNode → xmlElementType
  | mk t _ _ _ _ => t

def name : xmlNode → String
  | mk _ n _ _ _ => n

def properties : xmlNode → List (String × String)
  | mk _ _ p _ _ => p

def content : xmlNode → Option String
  | mk _ _ _ c _ => c

def children : xmlNode → List xmlNode
  | mk _ _ _ _ ch => ch

end xmlNode

/-- A parsed document: the nodes directly under the document node. -/
structure xmlDoc where
  children : List xmlNode

open xmlElementType

/-- The first element among `nodes`, if any. -/
def firstElement (nodes : List xmlNode) : Option xmlNode :=
  nodes.find? (fun n => n.type = XML_ELEMENT_NODE)

/-- libxml2 `xmlDocGetRootElement`: the first element child of the document,
`NULL` for a `NULL` document or a document without one. -/
def xmlDocGetRootElement (doc : Option xmlDoc) : Option xmlNode :=
  match doc with
  | none => none
  | some d => firstElement d.children

/-- libxml2 `xmlFirstElementChild`: the first child of `parent` that is an
element; `NULL` when `parent` is `NULL`, is not an element, or has none. -/
def xmlFirstElementChild (parent : Option xmlNode) : Option xmlNode :=
  match parent with
  | none => none
  | some p => if p.type = XML_ELEMENT_NODE then firstElement p.children else none

/-- libxml2 `xmlGetProp`: the value of the attribute called `name`, `NULL` when
the node is not an element or carries no such attribute. -/
def xmlGetProp (node : xmlNode) (name : String) : Option String :=
  if node.type = XML_ELEMENT_NODE then node.properties.lookup name else none

mutual
/-- libxml2 `xmlBufGetNodeContent` on one node: the text and CDATA found in
the subtree, in document order; comments and processing instructions add
nothing. -/
def xmlBufGetNodeContent : xmlNode → String
  | .mk XML_ELEMENT_NODE _ _ _ ch => xmlBufGetNodeContentList ch
  | .mk XML_TEXT_NODE _ _ c _ => c.getD ""
  | .mk XML_CDATA_SECTION_NODE _ _ c _ => c.getD ""
  | .mk XML_PI_NODE _ _ _ _ => ""
  | .mk XML_COMMENT_NODE _ _ _ _ => ""
/-- The same over a sibling list. -/
def xmlBufGetNodeContentList : List xmlNode → String
  | [] => ""
  | n :: ns => xmlBufGetNodeContent n ++ xmlBufGetNodeContentList ns
end

/-- libxml2 `xmlNodeGetContent`: for an element a freshly allocated buffer with
the text of its subtree (the empty string when there is none); for the other
kinds a copy of the node content, `NULL` when it has none. -/
def xmlNodeGetContent (node : xmlNode) : Option String :=
  match node.type with
  | XML_ELEMENT_NODE => some (xmlBufGetNodeContent node)
  | _ => node.content

/-- libxml2 `xmlStrcmp (a, b) == 0` against a literal `b`: a `NULL` first
argument never compares equal. -/
def xmlStrEqual (a : Option String) (b : String) : Bool :=
  match a with
  | none => false
  | some s => s == b

/-! ## The settings record -/

/-- The C `struct notification_setting`; every member is a nullable string. -/
structure notification_setting where
  pAppId : Option String
  pNotification : Option String
  pSounds : Option String
  pContents : Option String
  pBadge : Option String
  pPkgId : Option String
  pReserved1 : Option String
  pReserved2 : Option String
  deriving DecidableEq, Repr

/-- What `calloc (1, sizeof (struct notification_setting))` hands back: every
pointer member is `NULL`. -/
def zeroed_setting : notification_setting :=
  { pAppId := none, pNotification := none, pSounds := none, pContents := none,
    pBadge := none, pPkgId := none, pReserved1 := none, pReserved2 := none }

/-- Body of the loop at lines 446-471 for one child `node`. -/
def route_section (pNotiSetting : notification_setting) (node : xmlNode) :
    notification_setting :=
  if xmlStrEqual (some node.name) "notification" then
    let pSection := xmlGetProp node "section"
    if xmlStrEqual pSection "notification" then
      { pNotiSetting with pNotification := xmlNodeGetContent node }
    else if xmlStrEqual pSection "sounds" then
      { pNotiSetting with pSounds := xmlNodeGetContent node }
    else if xmlStrEqual pSection "contents" then
      { pNotiSetting with pContents := xmlNodeGetContent node }
    else if xmlStrEqual pSection "badge" then
      { pNotiSetting with pBadge := xmlNodeGetContent node }
    else pNotiSetting
  else pNotiSetting

/-- The loop `for (node = node->children; node; node = node->next)` of
`notification_install_data` (lines 446-471). -/
def route_children (children : List xmlNode) (pNotiSetting : notification_setting) :
    notification_setting :=
  children.foldl route_section pNotiSetting

/-- The block "set default value" of `notification_install_data`
(lines 473-489). -/
def set_default_value (s : notification_setting) : notification_setting :=
  let s := if s.pNotification = none then { s with pNotification := some "on" } else s
  let s := if s.pSounds = none then { s with pSounds := some "on" } else s
  let s := if s.pContents = none then { s with pContents := some "off" } else s
  let s := if s.pBadge = none then { s with pBadge := some "on" } else s
  s

/-- The record `notification_install_data` has built when it reaches the call
of `db_insert_notification_setting` (lines 436-491): starting from the
allocated structure, with `node` the first element, `appid` its attribute and
`pPkgId` the package id of the caller. -/
def built_setting (pNotiSetting : notification_setting) (node : xmlNode) (appid : String)
    (pPkgId : String) : notification_setting :=
  let s := { pNotiSetting with pAppId := some appid }
  let s := route_children node.children s
  let s := set_default_value s
  { s with pPkgId := some pPkgId }

/-! ## The database -/

/-- One row of `notification_setting`: `appid TEXT PRIMARY KEY NOT NULL`, the
other seven columns nullable `TEXT`. -/
structure Row where
  appid : String
  notification : Option String
  sounds : Option String
  contents : Option String
  badge : Option String
  pkgid : Option String
  reserved1 : Option String
  reserved2 : Option String
  deriving DecidableEq, Repr

/-- The table as the connection sees it: `none` while the schema is missing
(the database file is empty), else its rows. -/
abbrev Table := Option (List Row)

def rowsOf (t : Table) : List Row := t.getD []

/-- The connection object behind `databaseInfo.pHandle`. `txn` is `some snap`
while a transaction started by `BEGIN` is open, `snap` being the table at that
moment (what a rollback restores). -/
structure sqlite3 where
  txn : Option Table
  deriving DecidableEq, Repr

/-- Everything the plugin reads or writes outside its arguments.
* `pHandle`: the global `databaseInfo.pHandle` (`none` is `NULL`).
* `table`: content of the database at `DB_PATH`.
* `isReg`: whether `lstat (DB_PATH)` reports a regular file.
* `faults`: outcome of the coming fallible library calls, one entry per call in
  program order, `true` meaning that the call reports an error; calls beyond
  the end of the script succeed. -/
structure World where
  pHandle : Option sqlite3
  table : Table
  isReg : Bool
  faults : List Bool
  deriving DecidableEq, Repr

/-- Consume the script entry of the library call being made. -/
def nextFault (w : World) : Bool × World :=
  match w.faults with
  | [] => (false, w)
  | b :: rest => (b, { w with faults := rest })

/-- The SQL texts the plugin prepares or executes. -/
inductive Query where
  | BEGIN_TRANSACTION
  | ROLLBACK_TRANSACTION
  | COMMIT_TRANSACTION
  | CREATE_TABLE
  | INSERT
  | DELETE_BY_APPID
  | DELETE_BY_PKGID
  | COUNT_BY_PKGID
  deriving DecidableEq, Repr

/-- Whether the statement names the table `notification_setting` (and so
cannot be compiled while the table is missing). -/
def Query.usesTable : Query → Bool
  | .INSERT => true
  | .DELETE_BY_APPID => true
  | .DELETE_BY_PKGID => true
  | .COUNT_BY_PKGID => true
  | _ => false

/-- A prepared statement: its SQL, the values bound to its `?` parameters
(1-based, unbound parameters are `NULL`) and column 0 of its current result
row. -/
structure sqlite3_stmt where
  query : Query
  bindings : List (Nat × Option String)
  column0 : Int
  deriving DecidableEq, Repr

def sqlite3_stmt.param (pStmt : sqlite3_stmt) (i : Nat) : Option String :=
  (pStmt.bindings.lookup i).join

/-- SQL `a = b` taken as a condition: true only for two equal non-NULL values. -/
def sqlEq (a b : Option String) : Bool :=
  match a, b with
  | some x, some y => x == y
  | _, _ => false

/-- The row written by the `INSERT` statement from its six parameters,
`reserved1` and `reserved2` being the literal `null`. -/
def insertedRow (appid : String) (pStmt : sqlite3_stmt) : Row :=
  { appid := appid, notification := pStmt.param 2, sounds := pStmt.param 3,
    contents := pStmt.param 4, badge := pStmt.param 5, pkgid := pStmt.param 6,
    reserved1 := none, reserved2 := none }

/-- `sqlite3_prepare_v2 (databaseInfo.pHandle, query, ...)`: `SQLITE_OK` and a
fresh statement, unless the call is scripted to fail, the handle is `NULL`
(`SQLITE_MISUSE`), the statement names a missing table, or the table to create
exists already. -/
def sqlite3_prepare_v2 (w : World) (q : Query) : World × Int × sqlite3_stmt :=
  let pStmt : sqlite3_stmt := { query := q, bindings := [], column0 := 0 }
  let w1 := (nextFault w).2
  if (nextFault w).1 then (w1, SQLITE_IOERR, pStmt)
  else if w.pHandle = none then (w1, SQLITE_MISUSE, pStmt)
  else if q.usesTable && w.table.isNone then (w1, SQLITE_ERROR, pStmt)
  else if q = .CREATE_TABLE && w.table.isSome then (w1, SQLITE_ERROR, pStmt)
  else (w1, SQLITE_OK, pStmt)

/-- `sqlite3_bind_text (pStmt, i, value, -1, SQLITE_TRANSIENT)`; a `NULL`
value binds SQL `NULL`. -/
def sqlite3_bind_text (w : World) (pStmt : sqlite3_stmt) (i : Nat) (value : Option String) :
    World × Int × sqlite3_stmt :=
  let w1 := (nextFault w).2
  if (nextFault w).1 then (w1, SQLITE_ERROR, pStmt)
  else (w1, SQLITE_OK, { pStmt with bindings := (i, value) :: pStmt.bindings })

/-- What running a compiled statement does to the database, and the result
code of `sqlite3_step`. -/
def runStatement (w : World) (pStmt : sqlite3_stmt) : World × Int × sqlite3_stmt :=
  match w.pHandle with
  | none => (w, SQLITE_MISUSE, pStmt)
  | some db =>
    match pStmt.query with
    | .BEGIN_TRANSACTION =>
      match db.txn with
      | some _ => (w, SQLITE_ERROR, pStmt)
      | none => ({ w with pHandle := some { txn := some w.table } }, SQLITE_DONE, pStmt)
    | .ROLLBACK_TRANSACTION =>
      match db.txn with
      | none => (w, SQLITE_ERROR, pStmt)
      | some snap => ({ w with pHandle := some { txn := none }, table := snap }, SQLITE_DONE, pStmt)
    | .COMMIT_TRANSACTION =>
      match db.txn with
      | none => (w, SQLITE_ERROR, pStmt)
      | some _ => ({ w with pHandle := some { txn := none } }, SQLITE_DONE, pStmt)
    | .CREATE_TABLE =>
      match w.table with
      | some _ => (w, SQLITE_ERROR, pStmt)
      | none => ({ w with table := some [] }, SQLITE_DONE, pStmt)
    | .INSERT =>
      match w.table, pStmt.param 1 with
      | none, _ => (w, SQLITE_ERROR, pStmt)
      | some _, none => (w, SQLITE_CONSTRAINT, pStmt)
      | some rows, some appid =>
        if rows.any (fun r => r.appid == appid) then (w, SQLITE_CONSTRAINT, pStmt)
        else ({ w with table := some (rows ++ [insertedRow appid pStmt]) }, SQLITE_DONE, pStmt)
    | .DELETE_BY_APPID =>
      match w.table with
      | none => (w, SQLITE_ERROR, pStmt)
      | some rows =>
        ({ w with table := some (rows.filter (fun r => !sqlEq (some r.appid) (pStmt.param 1))) },
          SQLITE_DONE, pStmt)
    | .DELETE_BY_PKGID =>
      match w.table with
      | none => (w, SQLITE_ERROR, pStmt)
      | some rows =>
        let ids := (rows.filter (fun r => sqlEq r.pkgid (pStmt.param 1))).map (fun r => r.appid)
        ({ w with table := some (rows.filter (fun r => !ids.contains r.appid)) },
          SQLITE_DONE, pStmt)
    | .COUNT_BY_PKGID =>
      match w.table with
      | none => (w, SQLITE_ERROR, pStmt)
      | some rows =>
        (w, SQLITE_ROW,
          { pStmt with column0 := ((rows.filter (fun r => sqlEq r.pkgid (pStmt.param 1))).length : Int) })

/-- `sqlite3_step (pStmt)`. -/
def sqlite3_step (w : World) (pStmt : sqlite3_stmt) : World × Int × sqlite3_stmt :=
  let w1 := (nextFault w).2
  if (nextFault w).1 then (w1, SQLITE_IOERR, pStmt)
  else runStatement w1 pStmt

/-- `sqlite3_exec (databaseInfo.pHandle, query, NULL, NULL, &err)` for a
statement without result rows: `SQLITE_OK` when it compiled and ran. -/
def sqlite3_exec (w : World) (q : Query) : World × Int :=
  let p := sqlite3_prepare_v2 w q
  if p.2.1 ≠ SQLITE_OK then (p.1, p.2.1)
  else
    let r := runStatement p.1 p.2.2
    if r.2.1 = SQLITE_DONE then (r.1, SQLITE_OK) else (r.1, r.2.1)

/-- `sqlite3_column_int (pStmt, 0)`: column 0 converted to a 32-bit C `int`. -/
def sqlite3_column_int (pStmt : sqlite3_stmt) : Int :=
  (pStmt.column0 + 2 ^ 31) % 2 ^ 32 - 2 ^ 31

/-- `db_util_open (databaseInfo.pPath, &databaseInfo.pHandle, ...)`: on success
the handle is a fresh connection with no open transaction; a failed open is
taken to leave the handle `NULL`. -/
def db_util_open (w : World) : World × Int :=
  let w1 := (nextFault w).2
  if (nextFault w).1 then (w1, SQLITE_ERROR)
  else ({ w1 with pHandle := some { txn := none } }, SQLITE_OK)

/-- `db_util_close (databaseInfo.pHandle)` followed by the assignment
`databaseInfo.pHandle = NULL`: closing rolls an open transaction back. -/
def db_util_close (w : World) : World :=
  match w.pHandle with
  | none => w
  | some db =>
    match db.txn with
    | none => { w with pHandle := none }
    | some snap => { w with pHandle := none, table := snap }

/-- `lstat (databaseInfo.pPath, &stat)`: `none` when it fails, else
`(S_ISREG (st_mode), st_size = 0)`. The file is empty exactly when it holds no
schema. -/
def lstat (w : World) : World × Option (Bool × Bool) :=
  let w1 := (nextFault w).2
  if (nextFault w).1 then (w1, none)
  else (w1, some (w.isReg, w.table.isNone))

/-- `calloc (1, sizeof (struct notification_setting))`: `NULL` when the
allocation fails. -/
def calloc (w : World) : World × Option notification_setting :=
  let w1 := (nextFault w).2
  if (nextFault w).1 then (w1, none) else (w1, some zeroed_setting)

/-! ## The plugin: database layer (lines 82-358) -/

def EXIT_SUCCESS : Int := 0
def EXIT_FAILURE : Int := 1

/-- Shape shared by `begin_transaction`, `rollback_transaction` and
`commit_transaction`: prepare the statement, step it, finalize it. -/
def transaction_statement (w : World) (q : Query) : World × Int :=
  let p := sqlite3_prepare_v2 w q
  if p.2.1 ≠ SQLITE_OK then (p.1, EXIT_FAILURE)
  else
    let st := sqlite3_step p.1 p.2.2
    if st.2.1 ≠ SQLITE_DONE then (st.1, EXIT_FAILURE)
    else (st.1, EXIT_SUCCESS)

/-- Lines 82-102. -/
def begin_transaction (w : World) : World × Int :=
  transaction_statement w .BEGIN_TRANSACTION

/-- Lines 104-124. -/
def rollback_transaction (w : World) : World × Int :=
  transaction_statement w .ROLLBACK_TRANSACTION

/-- Lines 126-146. -/
def commit_transaction (w : World) : World × Int :=
  transaction_statement w .COMMIT_TRANSACTION

/-- Lines 148-165: `CREATE TABLE` through `sqlite3_exec`. -/
def db_create_notification_setting (w : World) : World × Int :=
  let e := sqlite3_exec w .CREATE_TABLE
  if e.2 ≠ SQLITE_OK then (e.1, - EIO) else (e.1, 0)

/-- Lines 167-245: the plain `INSERT INTO notification_setting (...) VALUES
(?, ?, ?, ?, ?, ?, null, null)`; each failing prepare, bind or step gives
`-EIO`. The calls after `out:` release the statement and change nothing
here. -/
def db_insert_notification_setting (w : World) (pNotiSetting : Option notification_setting) :
    World × Int :=
  match pNotiSetting with
  | none => (w, - EINVAL)
  | some s =>
    match sqlite3_prepare_v2 w .INSERT with
    | (w, ret, pStmt) =>
    if ret ≠ SQLITE_OK then (w, - EIO) else
    match sqlite3_bind_text w pStmt 1 s.pAppId with
    | (w, ret, pStmt) =>
    if ret ≠ SQLITE_OK then (w, - EIO) else
    match sqlite3_bind_text w pStmt 2 s.pNotification with
    | (w, ret, pStmt) =>
    if ret ≠ SQLITE_OK then (w, - EIO) else
    match sqlite3_bind_text w pStmt 3 s.pSounds with
    | (w, ret, pStmt) =>
    if ret ≠ SQLITE_OK then (w, - EIO) else
    match sqlite3_bind_text w pStmt 4 s.pContents with
    | (w, ret, pStmt) =>
    if ret ≠ SQLITE_OK then (w, - EIO) else
    match sqlite3_bind_text w pStmt 5 s.pBadge with
    | (w, ret, pStmt) =>
    if ret ≠ SQLITE_OK then (w, - EIO) else
    match sqlite3_bind_text w pStmt 6 s.pPkgId with
    | (w, ret, pStmt) =>
    if ret ≠ SQLITE_OK then (w, - EIO) else
    match sqlite3_step w pStmt with
    | (w, ret, _) =>
    if ret ≠ SQLITE_DONE then (w, - EIO) else (w, 0)

/-- Lines 248-280: `DELETE FROM notification_setting WHERE appid = ?`. -/
def db_delete_notification_setting (w : World) (pAppId : Option String) : World × Int :=
  let p := sqlite3_prepare_v2 w .DELETE_BY_APPID
  if p.2.1 ≠ SQLITE_OK then (p.1, - EIO)
  else
    let b := sqlite3_bind_text p.1 p.2.2 1 pAppId
    if b.2.1 ≠ SQLITE_OK then (b.1, - EIO)
    else
      let st := sqlite3_step b.1 b.2.2
      if st.2.1 ≠ SQLITE_DONE then (st.1, - EIO) else (st.1, 0)

/-- Lines 282-294; the results of the three transaction statements are
dropped, as in the source. -/
def db_create_table (w : World) : World :=
  let b := begin_transaction w
  let c := db_create_notification_setting b.1
  if c.2 < 0 then (rollback_transaction c.1).1
  else (commit_transaction c.1).1

/-- Lines 296-330. -/
def db_init (w : World) : World × Int :=
  let o := db_util_open w
  if o.2 ≠ SQLITE_OK then (o.1, - EIO)
  else
    let l := lstat o.1
    match l.2 with
    | none => (db_util_close l.1, - EIO)
    | some (isReg, empty) =>
      if !isReg then (db_util_close l.1, - EINVAL)
      else if empty then (db_create_table l.1, 0)
      else (l.1, 0)

/-- Lines 332-345. -/
def db_connect (w : World) : World × Int :=
  if w.pHandle = none then
    let i := db_init w
    if i.2 < 0 then (i.1, - EIO) else (i.1, 0)
  else (w, 0)

/-- Lines 347-358. -/
def db_disconnect (w : World) : World × Int :=
  if w.pHandle = none then (w, 0)
  else (db_util_close w, 0)

/-! ## The plugin: install and upgrade (lines 363-616) -/

/-- Lines 363-367. -/
def PKGMGR_PARSER_PLUGIN_PRE_INSTALL (w : World) (_pPkgId : String) : World × Int :=
  (w, 0)

/-- Lines 412-502. The value of `db_insert_notification_setting` is only
logged; the function ends with `return 0`. -/
def notification_install_data (w : World) (docPtr : Option xmlDoc) (pPkgId : String) :
    World × Int :=
  let c := db_connect w
  if c.2 < 0 then (c.1, - EIO)
  else
    match xmlFirstElementChild (xmlDocGetRootElement docPtr) with
    | none => ((db_disconnect c.1).1, - EINVAL)
    | some node =>
      let a := calloc c.1
      match a.2 with
      | none => ((db_disconnect a.1).1, - ENOMEM)
      | some pNotiSetting =>
        match xmlGetProp node "appid" with
        | none => ((db_disconnect a.1).1, - EINVAL)
        | some appid =>
          let r := db_insert_notification_setting a.1
            (some (built_setting pNotiSetting node appid pPkgId))
          ((db_disconnect r.1).1, 0)

/-- Lines 504-508. -/
def PKGMGR_PARSER_PLUGIN_INSTALL (w : World) (docPtr : Option xmlDoc) (pPkgId : String) :
    World × Int :=
  notification_install_data w docPtr pPkgId

/-- Lines 510-514. -/
def PKGMGR_PARSER_PLUGIN_POST_INSTALL (w : World) (_pPkgId : String) : World × Int :=
  (w, 0)

/-- Lines 520-552: `DELETE FROM notification_setting WHERE appid in (SELECT
appid FROM notification_setting WHERE pkgid = ?)`. -/
def notification_delete_data (w : World) (pPkgId : Option String) : World × Int :=
  let p := sqlite3_prepare_v2 w .DELETE_BY_PKGID
  if p.2.1 ≠ SQLITE_OK then (p.1, - EIO)
  else
    let b := sqlite3_bind_text p.1 p.2.2 1 pPkgId
    if b.2.1 ≠ SQLITE_OK then (b.1, - EIO)
    else
      let st := sqlite3_step b.1 b.2.2
      if st.2.1 ≠ SQLITE_DONE then (st.1, - EIO) else (st.1, 0)

/-- Lines 554-604. A failed prepare returns at once (line 570); the later
failures and the normal end go through `out:`, which disconnects. -/
def PKGMGR_PARSER_PLUGIN_PRE_UPGRADE (w : World) (pPkgId : String) : World × Int :=
  let c := db_connect w
  if c.2 < 0 then (c.1, - EIO)
  else
    let p := sqlite3_prepare_v2 c.1 .COUNT_BY_PKGID
    if p.2.1 ≠ SQLITE_OK then (p.1, - EIO)
    else
      let b := sqlite3_bind_text p.1 p.2.2 1 (some pPkgId)
      if b.2.1 ≠ SQLITE_OK then ((db_disconnect b.1).1, - EIO)
      else
        let st := sqlite3_step b.1 b.2.2
        if st.2.1 ≠ SQLITE_ROW then ((db_disconnect st.1).1, - EIO)
        else
          let count := sqlite3_column_int st.2.2
          if count > 0 then
            let d := notification_delete_data st.1 (some pPkgId)
            ((db_disconnect d.1).1, d.2)
          else ((db_disconnect st.1).1, 0)

/-- Lines 606-610. -/
def PKGMGR_PARSER_PLUGIN_UPGRADE (w : World) (docPtr : Option xmlDoc) (pPkgId : String) :
    World × Int :=
  notification_install_data w docPtr pPkgId

/-- Lines 612-616. -/
def PKGMGR_PARSER_PLUGIN_POST_UPGRADE (w : World) (_pPkgId : String) : World × Int :=
  (w, 0)

/-! ## The plugin: uninstall (lines 621-673) -/

/-- What the host package database answers for one package:
`appids` are the applications over which `pkgmgrinfo_appinfo_get_list` runs its
callback, in order, each with the id that `pkgmgrinfo_appinfo_get_appid`
reports, and `list_ret` is the status the enumeration returns. -/
structure pkgmgrinfo_pkginfo where
  appids : List String
  list_ret : Int
  deriving DecidableEq, Repr

/-- The host package database: `pkgmgrinfo_pkginfo_get_pkginfo` fails for a
package mapped to `none`. -/
abbrev Host := String → Option pkgmgrinfo_pkginfo

/-- The callback loop of `pkgmgrinfo_appinfo_get_list`: the callback is run on
each application in turn and a negative return of it stops the loop. -/
def appinfo_loop (app_func : World → String → World × Int) : List String → World → World
  | [], w => w
  | a :: rest, w =>
    let r := app_func w a
    if r.2 < 0 then r.1 else appinfo_loop app_func rest r.1

/-- `pkgmgrinfo_appinfo_get_list (handle, PMINFO_ALL_APP, app_func, NULL)`. -/
def pkgmgrinfo_appinfo_get_list (handle : pkgmgrinfo_pkginfo)
    (app_func : World → String → World × Int) (w : World) : World × Int :=
  (appinfo_loop app_func handle.appids w, handle.list_ret)

/-- Lines 621-625. -/
def PKGMGR_PARSER_PLUGIN_PRE_UNINSTALL (w : World) (_pPkgId : String) : World × Int :=
  (w, 0)

/-- Lines 627-636: the value of the delete is only logged. -/
def app_func (w : World) (pAppId : String) : World × Int :=
  let r := db_delete_notification_setting w (some pAppId)
  (r.1, 0)

/-- Lines 638-667. `docPtr` is not used. -/
def PKGMGR_PARSER_PLUGIN_UNINSTALL (host : Host) (w : World) (_docPtr : Option xmlDoc)
    (pPkgId : String) : World × Int :=
  match host pPkgId with
  | none => (w, - EINVAL)
  | some handle =>
    let c := db_connect w
    if c.2 < 0 then (c.1, - EIO)
    else
      let l := pkgmgrinfo_appinfo_get_list handle app_func c.1
      ((db_disconnect l.1).1, l.2)

/-- Lines 669-673. -/
def PKGMGR_PARSER_PLUGIN_POST_UNINSTALL (w : World) (_pPkgId : String) : World × Int :=
  (w, 0)

/-! ## Vocabulary of the statements -/

/-- None of the next `n` library calls is scripted to fail. -/
def callsSucceed (n : Nat) (w : World) : Bool :=
  (w.faults.take n).all (fun b => !b)

/-- The primary key holds: no two rows share an `appid`. -/
def PrimaryKey (t : Table) : Prop :=
  ((rowsOf t).map (fun r => r.appid)).Nodup

instance (t : Table) : Decidable (PrimaryKey t) := by
  unfold PrimaryKey
  infer_instance

/-- A store the plugin can meet: the primary key holds, and the number of rows
fits the C `int` through which the plugin reads a row count. -/
def ValidStore (t : Table) : Prop :=
  PrimaryKey t ∧ (rowsOf t).length < 2 ^ 31

instance (t : Table) : Decidable (ValidStore t) := by
  unfold ValidStore
  infer_instance

/-- The deletes of `db_delete_notification_setting` run for each application
id of `apps` in turn, whatever the earlier ones returned. -/
def deleteAll (apps : List String) (w : World) : World :=
  apps.foldl (fun w1 a => (db_delete_notification_setting w1 (some a)).1) w

/-- Number of rows owned by the package `P`. -/
def countByPkg (P : String) (rows : List Row) : Nat :=
  (rows.filter (fun r => r.pkgid = some P)).length

/-- Number of library calls `db_connect` makes on a closed handle when all of
them succeed: open and lstat, and five more to create the schema in an empty
file. -/
def connectCalls (t : Table) : Nat :=
  if t.isNone then 7 else 2

/-- The row that the `INSERT` statement writes for a record. -/
def rowOfSetting (appid : String) (s : notification_setting) : Row :=
  { appid := appid, notification := s.pNotification, sounds := s.pSounds,
    contents := s.pContents, badge := s.pBadge, pkgid := s.pPkgId,
    reserved1 := none, reserved2 := none }

/-- Whether `c` is a child named `notification` whose `section` attribute is
`sec`. -/
def isSection (sec : String) (c : xmlNode) : Bool :=
  decide (c.name = "notification" ∧ xmlGetProp c "section" = some sec)

/-- The direct children of `node` declaring the section `sec`, in sibling
order. -/
def sectionChildren (node : xmlNode) (sec : String) : List xmlNode :=
  node.children.filter (isSection sec)

/-- The value a manifest gives to the section `sec`: the text content of the
last child declaring it, the default `dflt` when no child does. -/
def lastWins (node : xmlNode) (sec dflt : String) : Option String :=
  match (sectionChildren node sec).getLast? with
  | some c => some (xmlBufGetNodeContent c)
  | none => some dflt

/-- The world once its next `n` script entries are consumed. -/
def skip (n : Nat) (w : World) : World :=
  { w with faults := w.faults.drop n }

/-- The statement `db_insert_notification_setting` steps once its six binds
went through. -/
def insertStmt (s : notification_setting) : sqlite3_stmt :=
  { query := .INSERT,
    bindings := [(6, s.pPkgId), (5, s.pBadge), (4, s.pContents), (3, s.pSounds),
      (2, s.pNotification), (1, s.pAppId)],
    column0 := 0 }

/-- State of a connection while the schema is being created in an empty
file: the handle is open, no row is visible, and a rollback would restore a
table without rows. -/
def Fresh (w : World) : Prop :=
  ∃ db, w.pHandle = some db ∧ rowsOf w.table = [] ∧
    ∀ snap, db.txn = some snap → rowsOf snap = []

/-- A connection on which closing loses nothing: no transaction is open, or
the open one covers a table without rows. -/
def Settled (w : World) : Prop :=
  ∃ db, w.pHandle = some db ∧
    (db.txn = none ∨ (rowsOf w.table = [] ∧ ∀ snap, db.txn = some snap → rowsOf snap = []))

/-- The rows of `w1` are rows of `w`, on the same handle, and the rows whose
`appid` is outside `L` are the same in both. -/
def Shrinks (L : List String) (w w1 : World) : Prop :=
  w1.pHandle = w.pHandle ∧ (∀ r ∈ rowsOf w1.table, r ∈ rowsOf w.table) ∧
    (rowsOf w1.table).filter (fun r => r.appid ∉ L) =
      (rowsOf w.table).filter (fun r => r.appid ∉ L)

/-! ## Example manifests and stores -/

/-- An element node. -/
def element (name : String) (attrs : List (String × String)) (ch : List xmlNode) : xmlNode :=
  .mk .XML_ELEMENT_NODE name attrs none ch

/-- A text node. -/
def text (s : String) : xmlNode :=
  .mk .XML_TEXT_NODE "text" [] (some s) []

/-- A manifest `<manifest><app appid=...> children </app></manifest>`. -/
def manifest (appid : String) (ch : List xmlNode) : xmlDoc :=
  { children := [element "manifest" [] [element "app" [("appid", appid)] ch]] }

/-- A `<notification section=sec>content</notification>` child. -/
def notificationChild (sec content : String) : xmlNode :=
  element "notification" [("section", sec)] [text content]

/-- A store row with its two reserved columns null. -/
def row (appid n s c b pkgid : String) : Row :=
  { appid := appid, notification := some n, sounds := some s, contents := some c,
    badge := some b, pkgid := some pkgid, reserved1 := none, reserved2 := none }

/-- A world with a closed handle, a regular database file holding `rows`, and
the script `faults`. -/
def closedWorld (rows : List Row) (faults : List Bool) : World :=
  { pHandle := none, table := some rows, isReg := true, faults := faults }

/-! ## Library calls under a script -/

theorem nextFault_snd (w : World) : (nextFault w).2 = skip 1 w := by
  cases w with
  | mk h t r f => cases f <;> simp [nextFault, skip]

theorem skip_skip (a b : Nat) (w : World) : skip a (skip b w) = skip (b + a) w := by
  simp [skip, List.drop_drop, Nat.add_comm]

@[simp] theorem skip_pHandle (n : Nat) (w : World) : (skip n w).pHandle = w.pHandle := rfl
@[simp] theorem skip_table (n : Nat) (w : World) : (skip n w).table = w.table := rfl
@[simp] theorem skip_isReg (n : Nat) (w : World) : (skip n w).isReg = w.isReg := rfl
@[simp] theorem skip_faults (n : Nat) (w : World) : (skip n w).faults = w.faults.drop n := rfl

theorem callsSucceed_succ (n : Nat) (w : World) :
    callsSucceed (n + 1) w = true ↔
      (nextFault w).1 = false ∧ callsSucceed n (skip 1 w) = true := by
  cases w with
  | mk h t r f => cases f <;> simp [callsSucceed, nextFault, skip]

theorem callsSucceed_skip (a b : Nat) (w : World) (h : callsSucceed (a + b) w = true) :
    callsSucceed b (skip a w) = true := by
  induction a generalizing w with
  | zero => simpa [skip] using h
  | succ k ih =>
    have h1 : callsSucceed (k + b + 1) w = true := by
      rw [show k + b + 1 = k + 1 + b by omega]; exact h
    have h2 := ((callsSucceed_succ (k + b) w).1 h1).2
    have h3 := ih (skip 1 w) h2
    rw [skip_skip] at h3
    rw [show k + 1 = 1 + k by omega]; exact h3

theorem callsSucceed_mono (a b : Nat) (w : World) (hab : a ≤ b)
    (h : callsSucceed b w = true) : callsSucceed a w = true := by
  simp only [callsSucceed, List.all_eq_true] at *
  intro x hx
  apply h x
  exact List.take_subset_take_left w.faults hab hx

theorem callsSucceed_head (n : Nat) (w : World) (hn : 0 < n)
    (h : callsSucceed n w = true) : (nextFault w).1 = false := by
  obtain ⟨k, rfl⟩ : ∃ k, n = k + 1 := ⟨n - 1, by omega⟩
  exact ((callsSucceed_succ k w).1 h).1

theorem prepare_ok (w : World) (q : Query) (hf : (nextFault w).1 = false)
    (hh : w.pHandle ≠ none) (ht : q.usesTable = true → w.table ≠ none)
    (hc : q = .CREATE_TABLE → w.table = none) :
    sqlite3_prepare_v2 w q = (skip 1 w, SQLITE_OK, { query := q, bindings := [], column0 := 0 }) := by
  have h1 : (q.usesTable && w.table.isNone) = false := by
    cases hq : q.usesTable
    · simp
    · have := ht hq
      cases hw : w.table <;> simp_all
  have h2 : (decide (q = .CREATE_TABLE) && w.table.isSome) = false := by
    by_cases hq : q = .CREATE_TABLE
    · simp [hc hq]
    · simp [hq]
  simp [sqlite3_prepare_v2, hf, hh, h1, h2, nextFault_snd]

theorem bind_ok (w : World) (pStmt : sqlite3_stmt) (i : Nat) (v : Option String)
    (hf : (nextFault w).1 = false) :
    sqlite3_bind_text w pStmt i v =
      (skip 1 w, SQLITE_OK, { pStmt with bindings := (i, v) :: pStmt.bindings }) := by
  simp [sqlite3_bind_text, hf, nextFault_snd]

theorem step_ok (w : World) (pStmt : sqlite3_stmt) (hf : (nextFault w).1 = false) :
    sqlite3_step w pStmt = runStatement (skip 1 w) pStmt := by
  simp [sqlite3_step, hf, nextFault_snd]

/-- A statement over one parameter, prepared, bound and stepped with no
scripted failure, reaches `runStatement` three script entries later. -/
theorem one_param_statement_ok (w : World) (q : Query) (v : Option String)
    (hq : q.usesTable = true) (hh : w.pHandle ≠ none) (ht : w.table ≠ none)
    (hok : callsSucceed 3 w = true) :
    sqlite3_prepare_v2 w q = (skip 1 w, SQLITE_OK, { query := q, bindings := [], column0 := 0 }) ∧
    sqlite3_bind_text (skip 1 w) { query := q, bindings := [], column0 := 0 } 1 v =
      (skip 2 w, SQLITE_OK, { query := q, bindings := [(1, v)], column0 := 0 }) ∧
    sqlite3_step (skip 2 w) { query := q, bindings := [(1, v)], column0 := 0 } =
      runStatement (skip 3 w) { query := q, bindings := [(1, v)], column0 := 0 } := by
  have h1 := callsSucceed_head 3 w (by omega) hok
  have h2 := callsSucceed_head 2 (skip 1 w) (by omega) (callsSucceed_skip 1 2 w hok)
  have h3 := callsSucceed_head 1 (skip 2 w) (by omega) (callsSucceed_skip 2 1 w hok)
  refine ⟨?_, ?_, ?_⟩
  · apply prepare_ok w q h1 hh (fun _ => ht)
    intro hc; subst hc; simp [Query.usesTable] at hq
  · rw [bind_ok _ _ _ _ h2, skip_skip]
  · rw [step_ok _ _ h3, skip_skip]

theorem db_delete_ok (w : World) (pAppId : Option String) (rows : List Row)
    (hh : w.pHandle ≠ none) (ht : w.table = some rows) (hok : callsSucceed 3 w = true) :
    db_delete_notification_setting w pAppId =
      ({ skip 3 w with table := some (rows.filter (fun r => !sqlEq (some r.appid) pAppId)) }, 0) := by
  obtain ⟨h1, h2, h3⟩ := one_param_statement_ok w .DELETE_BY_APPID pAppId rfl hh (by simp [ht]) hok
  obtain ⟨db, hdb⟩ := Option.ne_none_iff_exists'.1 hh
  simp [db_delete_notification_setting, h1, h2, h3, runStatement, hdb, ht, sqlite3_stmt.param,
    SQLITE_OK, SQLITE_DONE]

theorem notification_delete_data_ok (w : World) (pPkgId : Option String) (rows : List Row)
    (hh : w.pHandle ≠ none) (ht : w.table = some rows) (hok : callsSucceed 3 w = true) :
    notification_delete_data w pPkgId =
      ({ skip 3 w with table := some (rows.filter (fun r =>
          !((rows.filter (fun r => sqlEq r.pkgid pPkgId)).map (fun r => r.appid)).contains r.appid)) },
        0) := by
  obtain ⟨h1, h2, h3⟩ := one_param_statement_ok w .DELETE_BY_PKGID pPkgId rfl hh (by simp [ht]) hok
  obtain ⟨db, hdb⟩ := Option.ne_none_iff_exists'.1 hh
  simp [notification_delete_data, h1, h2, h3, runStatement, hdb, ht, sqlite3_stmt.param,
    SQLITE_OK, SQLITE_DONE]

@[simp] theorem nextFault_pHandle (w : World) : (nextFault w).2.pHandle = w.pHandle := by
  rw [nextFault_snd]; rfl

@[simp] theorem nextFault_table (w : World) : (nextFault w).2.table = w.table := by
  rw [nextFault_snd]; rfl

@[simp] theorem nextFault_isReg (w : World) : (nextFault w).2.isReg = w.isReg := by
  rw [nextFault_snd]; rfl

/-! ## Inserting -/

theorem db_insert_ok (w : World) (s : notification_setting) (rows : List Row) (appid : String)
    (hh : w.pHandle ≠ none) (ht : w.table = some rows) (ha : s.pAppId = some appid)
    (hnew : ∀ r ∈ rows, r.appid ≠ appid) (hok : callsSucceed 8 w = true) :
    db_insert_notification_setting w (some s) =
      ({ skip 8 w with table := some (rows ++ [rowOfSetting appid s]) }, 0) := by
  have hany : (rows.any fun r => r.appid == appid) = false := by
    simp only [List.any_eq_false, beq_iff_eq]
    intro x hx; exact hnew x hx
  have f0 := callsSucceed_head 8 w (by omega) hok
  have f1 := callsSucceed_head 7 (skip 1 w) (by omega) (callsSucceed_skip 1 7 w hok)
  have f2 := callsSucceed_head 6 (skip 2 w) (by omega) (callsSucceed_skip 2 6 w hok)
  have f3 := callsSucceed_head 5 (skip 3 w) (by omega) (callsSucceed_skip 3 5 w hok)
  have f4 := callsSucceed_head 4 (skip 4 w) (by omega) (callsSucceed_skip 4 4 w hok)
  have f5 := callsSucceed_head 3 (skip 5 w) (by omega) (callsSucceed_skip 5 3 w hok)
  have f6 := callsSucceed_head 2 (skip 6 w) (by omega) (callsSucceed_skip 6 2 w hok)
  have f7 := callsSucceed_head 1 (skip 7 w) (by omega) (callsSucceed_skip 7 1 w hok)
  obtain ⟨db, hdb⟩ := Option.ne_none_iff_exists'.1 hh
  have hp := prepare_ok w .INSERT f0 hh (fun _ => by simp [ht]) (fun h => by cases h)
  simp only [db_insert_notification_setting, hp, bind_ok _ _ _ _ f1, bind_ok _ _ _ _ f2,
    bind_ok _ _ _ _ f3, bind_ok _ _ _ _ f4, bind_ok _ _ _ _ f5, bind_ok _ _ _ _ f6,
    step_ok _ _ f7, skip_skip, ne_eq, not_true_eq_false, if_false]
  simp [runStatement, hdb, ht, sqlite3_stmt.param, ha, hany, insertedRow, rowOfSetting,
    SQLITE_DONE, skip, List.lookup]

theorem prepare_cases (w : World) (q : Query) :
    ∃ c, sqlite3_prepare_v2 w q = (skip 1 w, c, { query := q, bindings := [], column0 := 0 }) := by
  simp only [sqlite3_prepare_v2, nextFault_snd]
  split_ifs <;> exact ⟨_, rfl⟩

theorem bind_cases (w : World) (pStmt : sqlite3_stmt) (i : Nat) (v : Option String) :
    sqlite3_bind_text w pStmt i v =
        (skip 1 w, SQLITE_OK, { pStmt with bindings := (i, v) :: pStmt.bindings }) ∨
      sqlite3_bind_text w pStmt i v = (skip 1 w, SQLITE_ERROR, pStmt) := by
  simp only [sqlite3_bind_text, nextFault_snd]
  split_ifs
  · exact Or.inr rfl
  · exact Or.inl rfl

theorem step_cases (w : World) (pStmt : sqlite3_stmt) :
    sqlite3_step w pStmt = runStatement (skip 1 w) pStmt ∨
      sqlite3_step w pStmt = (skip 1 w, SQLITE_IOERR, pStmt) := by
  simp only [sqlite3_step, nextFault_snd]
  split_ifs
  · exact Or.inr rfl
  · exact Or.inl rfl

/-- Under any script the insert either gives up with `-EIO` before the
statement runs, or runs the fully bound statement after eight library calls. -/
theorem db_insert_cases (w : World) (s : notification_setting) :
    (∃ k, db_insert_notification_setting w (some s) = (skip k w, - EIO)) ∨
      db_insert_notification_setting w (some s) =
        ((runStatement (skip 8 w) (insertStmt s)).1,
          if (runStatement (skip 8 w) (insertStmt s)).2.1 ≠ SQLITE_DONE then - EIO else 0) := by
  obtain ⟨c, hp⟩ := prepare_cases w .INSERT
  by_cases hc : c = SQLITE_OK
  swap
  · exact Or.inl ⟨1, by simp only [db_insert_notification_setting, hp, ne_eq, hc, not_false_eq_true, if_true]⟩
  subst hc
  have hne : SQLITE_ERROR ≠ SQLITE_OK := by decide
  rcases bind_cases (skip 1 w) { query := .INSERT, bindings := [], column0 := 0 } 1 s.pAppId
    with h1 | h1
  swap
  · exact Or.inl ⟨2, by simp [db_insert_notification_setting, hp, h1, hne, skip_skip]⟩
  rcases bind_cases (skip 2 w) { query := .INSERT, bindings := [(1, s.pAppId)], column0 := 0 }
    2 s.pNotification with h2 | h2
  swap
  · exact Or.inl ⟨3, by simp [db_insert_notification_setting, hp, h1, h2, hne, skip_skip]⟩
  rcases bind_cases (skip 3 w)
    { query := .INSERT, bindings := [(2, s.pNotification), (1, s.pAppId)], column0 := 0 }
    3 s.pSounds with h3 | h3
  swap
  · exact Or.inl ⟨4, by simp [db_insert_notification_setting, hp, h1, h2, h3, hne, skip_skip]⟩
  rcases bind_cases (skip 4 w)
    { query := .INSERT, bindings := [(3, s.pSounds), (2, s.pNotification), (1, s.pAppId)],
      column0 := 0 }
    4 s.pContents with h4 | h4
  swap
  · exact Or.inl ⟨5, by simp [db_insert_notification_setting, hp, h1, h2, h3, h4, hne, skip_skip]⟩
  rcases bind_cases (skip 5 w)
    { query := .INSERT,
      bindings := [(4, s.pContents), (3, s.pSounds), (2, s.pNotification), (1, s.pAppId)],
      column0 := 0 }
    5 s.pBadge with h5 | h5
  swap
  · exact Or.inl ⟨6, by
      simp [db_insert_notification_setting, hp, h1, h2, h3, h4, h5, hne, skip_skip]⟩
  rcases bind_cases (skip 6 w)
    { query := .INSERT,
      bindings := [(5, s.pBadge), (4, s.pContents), (3, s.pSounds), (2, s.pNotification),
        (1, s.pAppId)],
      column0 := 0 }
    6 s.pPkgId with h6 | h6
  swap
  · exact Or.inl ⟨7, by
      simp [db_insert_notification_setting, hp, h1, h2, h3, h4, h5, h6, hne, skip_skip]⟩
  rcases step_cases (skip 7 w) (insertStmt s) with h7 | h7
  · right
    simp only [insertStmt] at h7 ⊢
    simp [db_insert_notification_setting, hp, h1, h2, h3, h4, h5, h6, h7, skip_skip]
    split_ifs <;> rfl
  · refine Or.inl ⟨8, ?_⟩
    simp only [insertStmt] at h7
    simp [db_insert_notification_setting, hp, h1, h2, h3, h4, h5, h6, h7, skip_skip,
      SQLITE_IOERR, SQLITE_DONE]

/-- Whatever the script, an insert for an `appid` that the table holds
already leaves table and handle as they are. -/
theorem db_insert_conflict (w : World) (s : notification_setting) (rows : List Row)
    (appid : String) (ht : w.table = some rows) (ha : s.pAppId = some appid)
    (hold : ∃ r ∈ rows, r.appid = appid) :
    (db_insert_notification_setting w (some s)).1.table = w.table ∧
    (db_insert_notification_setting w (some s)).1.pHandle = w.pHandle := by
  have hany : (rows.any fun r => r.appid == appid) = true := by
    simp only [List.any_eq_true, beq_iff_eq]
    exact hold
  rcases db_insert_cases w s with ⟨k, hk⟩ | h
  · rw [hk]; exact ⟨rfl, rfl⟩
  · rw [h]
    cases hw : w.pHandle with
    | none => simp [runStatement, hw]
    | some db =>
      simp [runStatement, hw, ht, insertStmt, sqlite3_stmt.param, List.lookup, ha, hany]

/-! ## Connecting -/

theorem db_connect_ok (w : World) (hclosed : w.pHandle = none) (hreg : w.isReg = true)
    (hok : callsSucceed (connectCalls w.table) w = true) :
    db_connect w =
      ({ skip (connectCalls w.table) w with
          pHandle := some { txn := none }, table := some (rowsOf w.table) }, 0) := by
  obtain ⟨h, t, r, f⟩ := w
  simp only at hclosed hreg
  subst hclosed hreg
  cases t with
  | some rows =>
    rcases f with _ | ⟨b1, _ | ⟨b2, f⟩⟩ <;>
      simp_all [connectCalls, callsSucceed, db_connect, db_init, db_util_open, lstat, nextFault,
        skip, rowsOf, SQLITE_OK, SQLITE_ERROR, EIO]
  | none =>
    rcases f with _ | ⟨b1, _ | ⟨b2, _ | ⟨b3, _ | ⟨b4, _ | ⟨b5, _ | ⟨b6, _ | ⟨b7, f⟩⟩⟩⟩⟩⟩⟩ <;>
      simp_all [connectCalls, callsSucceed, db_connect, db_init, db_util_open, lstat, nextFault,
        skip, rowsOf, SQLITE_OK, SQLITE_ERROR, EIO, db_create_table, begin_transaction,
        commit_transaction, rollback_transaction, transaction_statement,
        db_create_notification_setting, sqlite3_exec, sqlite3_prepare_v2, sqlite3_step,
        runStatement, Query.usesTable, SQLITE_DONE, EXIT_SUCCESS, EXIT_FAILURE]

theorem Fresh_skip (n : Nat) (w : World) (h : Fresh w) : Fresh (skip n w) := h

theorem runStatement_fresh (w : World) (pStmt : sqlite3_stmt)
    (hq : pStmt.query.usesTable = false) (h : Fresh w) : Fresh (runStatement w pStmt).1 := by
  obtain ⟨db, hdb, hrows, hsnap⟩ := h
  obtain ⟨hd, t, r, f⟩ := w
  simp only at hdb hrows
  subst hdb
  obtain ⟨q, b, c⟩ := pStmt
  obtain ⟨txn⟩ := db
  simp only at hsnap
  cases q <;> simp [Query.usesTable] at hq <;> cases txn <;> cases t <;>
    simp_all [runStatement, Fresh, rowsOf]

theorem transaction_statement_fresh (w : World) (q : Query) (hq : q.usesTable = false)
    (h : Fresh w) : Fresh (transaction_statement w q).1 := by
  obtain ⟨c, hp⟩ := prepare_cases w q
  simp only [transaction_statement, hp]
  split_ifs
  · exact Fresh_skip 1 w h
  · rcases step_cases (skip 1 w) { query := q, bindings := [], column0 := 0 } with hs | hs <;>
      rw [hs]
    · exact runStatement_fresh _ _ hq (Fresh_skip 1 w h)
    · exact Fresh_skip 1 _ (Fresh_skip 1 w h)
  · rcases step_cases (skip 1 w) { query := q, bindings := [], column0 := 0 } with hs | hs <;>
      rw [hs]
    · exact runStatement_fresh _ _ hq (Fresh_skip 1 w h)
    · exact Fresh_skip 1 _ (Fresh_skip 1 w h)

theorem db_create_notification_setting_fresh (w : World) (h : Fresh w) :
    Fresh (db_create_notification_setting w).1 := by
  obtain ⟨c, hp⟩ := prepare_cases w .CREATE_TABLE
  simp only [db_create_notification_setting, sqlite3_exec, hp]
  split_ifs <;> first
    | exact Fresh_skip 1 w h
    | exact runStatement_fresh _ _ rfl (Fresh_skip 1 w h)

theorem db_create_table_fresh (w : World) (h : Fresh w) : Fresh (db_create_table w) := by
  simp only [db_create_table, begin_transaction, rollback_transaction, commit_transaction]
  have h1 := transaction_statement_fresh w .BEGIN_TRANSACTION rfl h
  have h2 := db_create_notification_setting_fresh _ h1
  split_ifs
  · exact transaction_statement_fresh _ _ rfl h2
  · exact transaction_statement_fresh _ _ rfl h2

theorem db_util_open_cases (w : World) :
    (∃ w1, db_util_open w = (w1, SQLITE_ERROR) ∧ w1.pHandle = w.pHandle ∧ w1.table = w.table) ∨
      (∃ w1, db_util_open w = (w1, SQLITE_OK) ∧ w1.pHandle = some { txn := none } ∧
        w1.table = w.table ∧ w1.isReg = w.isReg) := by
  simp only [db_util_open, nextFault_snd]
  split_ifs
  · exact Or.inl ⟨_, rfl, rfl, rfl⟩
  · exact Or.inr ⟨_, rfl, rfl, rfl, rfl⟩

theorem lstat_cases (w : World) :
    ∃ w1, w1.pHandle = w.pHandle ∧ w1.table = w.table ∧
      (lstat w = (w1, none) ∨ lstat w = (w1, some (w.isReg, w.table.isNone))) := by
  simp only [lstat, nextFault_snd]
  split_ifs
  · exact ⟨skip 1 w, rfl, rfl, Or.inl rfl⟩
  · exact ⟨skip 1 w, rfl, rfl, Or.inr rfl⟩

/-- What `db_connect` establishes on a closed handle, whatever the script:
either it fails and leaves handle and table as they were, or the handle is
open on the same rows, and a transaction left open (a failed `COMMIT` or
`ROLLBACK` while creating the schema) only ever covers a table without rows. -/
theorem db_connect_inv (w : World) (hclosed : w.pHandle = none) :
    ((db_connect w).2 < 0 ∧ (db_connect w).1.pHandle = none ∧
        (db_connect w).1.table = w.table) ∨
      ((db_connect w).2 = 0 ∧ rowsOf (db_connect w).1.table = rowsOf w.table ∧
        ∃ db, (db_connect w).1.pHandle = some db ∧
          ((db.txn = none ∧ (w.table ≠ none → (db_connect w).1.table = w.table)) ∨
            (rowsOf w.table = [] ∧ ∀ snap, db.txn = some snap → rowsOf snap = []))) := by
  have hio : - EIO < 0 := by decide
  have hEINVAL : - EINVAL < 0 := by decide
  have hne : SQLITE_ERROR ≠ SQLITE_OK := by decide
  simp only [db_connect, hclosed, if_true]
  rcases db_util_open_cases w with ⟨w1, ho, h1, h2⟩ | ⟨w1, ho, h1, h2, h3⟩
  · left
    simp [db_init, ho, hne, hio, hclosed, h1, h2]
  · obtain ⟨w2, g1, g2, hl | hl⟩ := lstat_cases w1
    · left
      simp [db_init, ho, hl, hio, db_util_close, g1, g2, h1, h2]
    · cases hreg : w.isReg with
      | false =>
        left
        simp [db_init, ho, hl, hio, hEINVAL, db_util_close, hreg, g1, g2, h1, h2, h3]
      | true =>
        right
        cases ht : w.table with
        | some rows =>
          simp [db_init, ho, hl, hreg, ht, g1, g2, h1, h2, h3]
        | none =>
          have hfresh : Fresh w2 :=
            ⟨{ txn := none }, by rw [g1, h1], by simp [rowsOf, g2, h2, ht], by simp⟩
          obtain ⟨db, k1, k2, k3⟩ := db_create_table_fresh _ hfresh
          simp only [db_init, ho, hl, hreg, ht, h2, h3, ne_eq, not_true_eq_false, if_false,
            Bool.not_true, Bool.false_eq_true, Option.isNone_none, if_true]
          refine ⟨by simp, ?_, db, k1, Or.inr ⟨by simp [rowsOf], k3⟩⟩
          simpa [rowsOf] using k2

theorem db_disconnect_rows (w : World) (h : Settled w) :
    rowsOf (db_disconnect w).1.table = rowsOf w.table := by
  obtain ⟨db, hdb, h | ⟨h1, h2⟩⟩ := h
  · simp [db_disconnect, db_util_close, hdb, h]
  · cases hd : db.txn with
    | none => simp [db_disconnect, db_util_close, hdb, hd]
    | some snap => simp [db_disconnect, db_util_close, hdb, hd, h1, h2 snap hd]

theorem db_disconnect_table (w : World) (db : sqlite3) (h : w.pHandle = some db)
    (ht : db.txn = none) : (db_disconnect w).1.table = w.table := by
  simp [db_disconnect, db_util_close, h, ht]

theorem db_disconnect_faults (w : World) : (db_disconnect w).1.faults = w.faults := by
  simp only [db_disconnect, db_util_close]
  split_ifs with h
  · rfl
  · cases hw : w.pHandle with
    | none => exact absurd hw h
    | some db => cases hd : db.txn <;> simp [hd]

theorem Settled_of_same (w w1 : World) (h : Settled w) (hh : w1.pHandle = w.pHandle)
    (ht : rowsOf w.table = [] → rowsOf w1.table = []) : Settled w1 := by
  obtain ⟨db, hdb, h | ⟨h1, h2⟩⟩ := h
  · exact ⟨db, hh.trans hdb, Or.inl h⟩
  · exact ⟨db, hh.trans hdb, Or.inr ⟨ht h1, h2⟩⟩

/-- A successful `db_connect` on a closed handle shows the rows that were
there and can be closed without losing any. -/
theorem db_connect_settled (w : World) (hclosed : w.pHandle = none)
    (hconn : (db_connect w).2 = 0) :
    rowsOf (db_connect w).1.table = rowsOf w.table ∧ Settled (db_connect w).1 := by
  rcases db_connect_inv w hclosed with ⟨h, _⟩ | ⟨_, hrows, db, hdb, h | ⟨h1, h2⟩⟩
  · omega
  · exact ⟨hrows, db, hdb, Or.inl h.1⟩
  · exact ⟨hrows, db, hdb, Or.inr ⟨hrows.trans h1, h2⟩⟩

theorem calloc_fst (w : World) : (calloc w).1 = skip 1 w := by
  simp only [calloc, nextFault_snd]
  split_ifs <;> rfl

theorem calloc_snd (w : World) (h : (calloc w).2 ≠ none) : (calloc w).2 = some zeroed_setting := by
  simp only [calloc] at h ⊢
  split_ifs at h ⊢
  · exact absurd rfl h
  · rfl

theorem callsSucceed_congr (n : Nat) (w1 w2 : World) (h : w1.faults = w2.faults) :
    callsSucceed n w1 = callsSucceed n w2 := by
  simp [callsSucceed, h]

/-! ## Rows and keys -/

theorem sqlEq_some (a : Option String) (P : String) : sqlEq a (some P) = decide (a = some P) := by
  cases a with
  | none => simp [sqlEq]
  | some v => simp only [sqlEq, Option.some.injEq]; rfl

theorem filter_appid_length_le_one (t : Table) (X : String) (hpk : PrimaryKey t) :
    ((rowsOf t).filter (fun r => r.appid = X)).length ≤ 1 := by
  have hcount : ((rowsOf t).map (fun r => r.appid)).count X ≤ 1 :=
    List.nodup_iff_count_le_one.1 hpk X
  have hlen : ((rowsOf t).map (fun r => r.appid)).count X =
      ((rowsOf t).filter (fun r => r.appid = X)).length := by
    rw [List.count_eq_countP, List.countP_map, List.countP_eq_length_filter]
    congr 1
  omega

/-- Under the primary key, the rows whose `appid` is that of some row of the
package `P` are the rows of `P`. -/
theorem delete_by_pkgid_rows (rows : List Row) (P : String) (hpk : PrimaryKey (some rows)) :
    rows.filter (fun r =>
        !((rows.filter (fun r => sqlEq r.pkgid (some P))).map (fun r => r.appid)).contains r.appid) =
      rows.filter (fun r => r.pkgid ≠ some P) := by
  apply List.filter_congr
  intro r hr
  have hinj := List.inj_on_of_nodup_map hpk
  by_cases h : r.pkgid = some P
  · have hmem : r.appid ∈ (rows.filter (fun r => sqlEq r.pkgid (some P))).map (fun r => r.appid) :=
      List.mem_map.2 ⟨r, List.mem_filter.2 ⟨hr, by simp [sqlEq_some, h]⟩, rfl⟩
    simp [h, hmem]
  · have hmem : r.appid ∉ (rows.filter (fun r => sqlEq r.pkgid (some P))).map (fun r => r.appid) := by
      intro hm
      obtain ⟨r1, hr1, he⟩ := List.mem_map.1 hm
      obtain ⟨hr1, hp⟩ := List.mem_filter.1 hr1
      have : r1 = r := hinj hr1 hr he
      subst this
      simp [sqlEq_some] at hp
      exact h hp
    simp [h, hmem]

/-! ## Deleting under any script -/

/-- Under any script a delete keeps the handle, and either fails and keeps
the table, or returns 0 and removes the rows of that `appid`. -/
theorem db_delete_effect (w : World) (a : String) :
    (db_delete_notification_setting w (some a)).1.pHandle = w.pHandle ∧
    (((db_delete_notification_setting w (some a)).2 ≠ 0 ∧
        (db_delete_notification_setting w (some a)).1.table = w.table) ∨
      ((db_delete_notification_setting w (some a)).2 = 0 ∧
        ∃ rows, w.table = some rows ∧
          (db_delete_notification_setting w (some a)).1.table =
            some (rows.filter (fun r => r.appid ≠ a)))) := by
  have hio : - EIO ≠ 0 := by decide
  have hne : SQLITE_ERROR ≠ SQLITE_OK := by decide
  obtain ⟨c, hp⟩ := prepare_cases w .DELETE_BY_APPID
  by_cases hc : c = SQLITE_OK
  swap
  · simp only [db_delete_notification_setting, hp, ne_eq, hc, not_false_eq_true, if_true]
    exact ⟨rfl, Or.inl ⟨hio, rfl⟩⟩
  subst hc
  rcases bind_cases (skip 1 w) { query := .DELETE_BY_APPID, bindings := [], column0 := 0 } 1
    (some a) with hb | hb
  swap
  · simp only [db_delete_notification_setting, hp, hb, ne_eq, not_true_eq_false, if_false, hne,
      not_false_eq_true, if_true]
    exact ⟨rfl, Or.inl ⟨hio, rfl⟩⟩
  rcases step_cases (skip 1 (skip 1 w))
    { query := .DELETE_BY_APPID, bindings := [(1, some a)], column0 := 0 } with hs | hs
  swap
  · simp only [db_delete_notification_setting, hp, hb, hs, ne_eq, not_true_eq_false, if_false]
    simp only [SQLITE_IOERR, SQLITE_DONE]
    exact ⟨rfl, Or.inl ⟨hio, rfl⟩⟩
  simp only [db_delete_notification_setting, hp, hb, hs, ne_eq, not_true_eq_false, if_false]
  cases hh : w.pHandle with
  | none =>
    simp only [runStatement, skip_pHandle, hh, SQLITE_MISUSE, SQLITE_DONE]
    exact ⟨hh, Or.inl ⟨hio, rfl⟩⟩
  | some db =>
    cases ht : w.table with
    | none =>
      simp only [runStatement, skip_pHandle, skip_table, hh, ht, SQLITE_ERROR, SQLITE_DONE]
      exact ⟨hh, Or.inl ⟨hio, ht⟩⟩
    | some rows =>
      simp only [runStatement, skip_pHandle, skip_table, hh, ht, sqlite3_stmt.param,
        List.lookup, not_true_eq_false, if_false]
      refine ⟨trivial, Or.inr ⟨by simp, rows, rfl, ?_⟩⟩
      simp only [Option.some.injEq]
      apply List.filter_congr
      intro r _
      by_cases h : r.appid = a <;> simp [sqlEq, h]

theorem Shrinks_refl (L : List String) (w : World) : Shrinks L w w :=
  ⟨rfl, fun _ h => h, rfl⟩

theorem Shrinks_trans (L : List String) (w1 w2 w3 : World) (h12 : Shrinks L w1 w2)
    (h23 : Shrinks L w2 w3) : Shrinks L w1 w3 :=
  ⟨h23.1.trans h12.1, fun r h => h12.2.1 r (h23.2.1 r h), h23.2.2.trans h12.2.2⟩

theorem db_delete_shrinks (L : List String) (w : World) (a : String) (ha : a ∈ L) :
    Shrinks L w (db_delete_notification_setting w (some a)).1 := by
  obtain ⟨h1, ⟨_, h2⟩ | ⟨_, rows, ht, h2⟩⟩ := db_delete_effect w a
  · exact ⟨h1, by rw [h2]; exact fun _ h => h, by rw [h2]⟩
  · refine ⟨h1, ?_, ?_⟩
    · rw [h2, ht]
      intro r hr
      exact (List.mem_filter.1 hr).1
    · rw [h2, ht]
      simp only [rowsOf, Option.getD_some, List.filter_filter]
      apply List.filter_congr
      intro r _
      by_cases hr : r.appid = a
      · simp [hr, ha]
      · simp [hr]

theorem deleteAll_shrinks (L apps : List String) (hsub : ∀ a ∈ apps, a ∈ L) (w : World) :
    Shrinks L w (deleteAll apps w) := by
  induction apps generalizing w with
  | nil => exact Shrinks_refl L w
  | cons a rest ih =>
    have h1 := db_delete_shrinks L w a (hsub a (List.mem_cons_self a rest))
    have h2 := ih (fun b hb => hsub b (List.mem_cons_of_mem a hb))
      (db_delete_notification_setting w (some a)).1
    exact Shrinks_trans L _ _ _ h1 h2

theorem deleteAll_append (pre post : List String) (w : World) :
    deleteAll (pre ++ post) w = deleteAll post (deleteAll pre w) := by
  simp [deleteAll, List.foldl_append]

theorem deleteAll_cons (a : String) (rest : List String) (w : World) :
    deleteAll (a :: rest) w = deleteAll rest (db_delete_notification_setting w (some a)).1 := rfl

/-- The callback never stops the enumeration: the loop is `deleteAll`. -/
theorem appinfo_loop_app_func (apps : List String) (w : World) :
    appinfo_loop app_func apps w = deleteAll apps w := by
  induction apps generalizing w with
  | nil => rfl
  | cons a rest ih =>
    simp only [appinfo_loop, app_func, deleteAll_cons]
    rw [if_neg (by decide)]
    exact ih _

/-! ## Extraction -/

theorem route_section_pNotification (s : notification_setting) (c : xmlNode) :
    (route_section s c).pNotification =
      if isSection "notification" c then xmlNodeGetContent c else s.pNotification := by
  unfold route_section isSection xmlStrEqual
  cases h : xmlGetProp c "section" <;> simp
  all_goals (split_ifs <;> simp_all)

theorem route_section_pSounds (s : notification_setting) (c : xmlNode) :
    (route_section s c).pSounds =
      if isSection "sounds" c then xmlNodeGetContent c else s.pSounds := by
  unfold route_section isSection xmlStrEqual
  cases h : xmlGetProp c "section" <;> simp
  all_goals (split_ifs <;> simp_all)

theorem route_section_pContents (s : notification_setting) (c : xmlNode) :
    (route_section s c).pContents =
      if isSection "contents" c then xmlNodeGetContent c else s.pContents := by
  unfold route_section isSection xmlStrEqual
  cases h : xmlGetProp c "section" <;> simp
  all_goals (split_ifs <;> simp_all)

theorem route_section_pBadge (s : notification_setting) (c : xmlNode) :
    (route_section s c).pBadge =
      if isSection "badge" c then xmlNodeGetContent c else s.pBadge := by
  unfold route_section isSection xmlStrEqual
  cases h : xmlGetProp c "section" <;> simp
  all_goals (split_ifs <;> simp_all)

theorem route_section_pAppId (s : notification_setting) (c : xmlNode) :
    (route_section s c).pAppId = s.pAppId ∧ (route_section s c).pPkgId = s.pPkgId ∧
      (route_section s c).pReserved1 = s.pReserved1 ∧
      (route_section s c).pReserved2 = s.pReserved2 := by
  simp only [route_section]
  split_ifs <;> exact ⟨rfl, rfl, rfl, rfl⟩

/-- A child that declares a section is an element, so its content is the text
of its subtree. -/
theorem content_of_section (sec : String) (c : xmlNode) (h : isSection sec c = true) :
    xmlNodeGetContent c = some (xmlBufGetNodeContent c) := by
  simp only [isSection, decide_eq_true_eq] at h
  have ht : c.type = XML_ELEMENT_NODE := by
    by_contra hne
    simp [xmlGetProp, hne] at h
  simp [xmlNodeGetContent, ht]

/-- A loop that overwrites a field at each child passing a test leaves the
value written at the last such child. -/
theorem foldl_last_wins (get : notification_setting → Option String) (sec : String)
    (hstep : ∀ s c, get (route_section s c) =
      if isSection sec c then xmlNodeGetContent c else get s)
    (cs : List xmlNode) (s : notification_setting) :
    get (route_children cs s) =
      match (cs.filter (isSection sec)).getLast? with
      | some c => some (xmlBufGetNodeContent c)
      | none => get s := by
  induction cs generalizing s with
  | nil => simp [route_children]
  | cons c cs ih =>
    have hfold : route_children (c :: cs) s = route_children cs (route_section s c) := rfl
    rw [hfold, ih, hstep]
    by_cases hc : isSection sec c = true
    · simp only [List.filter_cons, hc, if_true]
      cases hl : List.filter (isSection sec) cs with
      | nil => simp [content_of_section sec c hc]
      | cons d ds =>
        have he : (d :: ds).getLast? = some ((d :: ds).getLast (List.cons_ne_nil d ds)) :=
          List.getLast?_eq_getLast _ _
        rw [List.getLast?_cons_cons, he]
    · simp only [List.filter_cons, hc, if_false]
      simp

theorem route_children_frame (cs : List xmlNode) (s : notification_setting) :
    (route_children cs s).pAppId = s.pAppId ∧ (route_children cs s).pPkgId = s.pPkgId ∧
      (route_children cs s).pReserved1 = s.pReserved1 ∧
      (route_children cs s).pReserved2 = s.pReserved2 := by
  induction cs generalizing s with
  | nil => simp [route_children]
  | cons c cs ih =>
    have hfold : route_children (c :: cs) s = route_children cs (route_section s c) := rfl
    obtain ⟨h1, h2, h3, h4⟩ := route_section_pAppId s c
    obtain ⟨k1, k2, k3, k4⟩ := ih (route_section s c)
    rw [hfold]
    exact ⟨k1.trans h1, k2.trans h2, k3.trans h3, k4.trans h4⟩

theorem set_default_value_eq (r : notification_setting) :
    set_default_value r =
      { r with
        pNotification := some (r.pNotification.getD "on"),
        pSounds := some (r.pSounds.getD "on"),
        pContents := some (r.pContents.getD "off"),
        pBadge := some (r.pBadge.getD "on") } := by
  obtain ⟨a1, a2, a3, a4, a5, a6, a7, a8⟩ := r
  cases a2 <;> cases a3 <;> cases a4 <;> cases a5 <;> rfl

theorem built_setting_eq (node : xmlNode) (A P : String) :
    built_setting zeroed_setting node A P =
      { pAppId := some A,
        pNotification := lastWins node "notification" "on",
        pSounds := lastWins node "sounds" "on",
        pContents := lastWins node "contents" "off",
        pBadge := lastWins node "badge" "on",
        pPkgId := some P, pReserved1 := none, pReserved2 := none } := by
  have hn := foldl_last_wins (fun s => s.pNotification) "notification"
    route_section_pNotification node.children { zeroed_setting with pAppId := some A }
  have hs := foldl_last_wins (fun s => s.pSounds) "sounds"
    route_section_pSounds node.children { zeroed_setting with pAppId := some A }
  have hc := foldl_last_wins (fun s => s.pContents) "contents"
    route_section_pContents node.children { zeroed_setting with pAppId := some A }
  have hb := foldl_last_wins (fun s => s.pBadge) "badge"
    route_section_pBadge node.children { zeroed_setting with pAppId := some A }
  obtain ⟨f1, f2, f3, f4⟩ := route_children_frame node.children
    { zeroed_setting with pAppId := some A }
  simp only [built_setting, set_default_value_eq, notification_setting.mk.injEq]
  refine ⟨f1, ?_, ?_, ?_, ?_, trivial, f3, f4⟩
  · rw [hn]; simp only [lastWins, sectionChildren, zeroed_setting]
    cases (List.filter (isSection "notification") node.children).getLast? <;> rfl
  · rw [hs]; simp only [lastWins, sectionChildren, zeroed_setting]
    cases (List.filter (isSection "sounds") node.children).getLast? <;> rfl
  · rw [hc]; simp only [lastWins, sectionChildren, zeroed_setting]
    cases (List.filter (isSection "contents") node.children).getLast? <;> rfl
  · rw [hb]; simp only [lastWins, sectionChildren, zeroed_setting]
    cases (List.filter (isSection "badge") node.children).getLast? <;> rfl

/-- Once the connection is open, a first element with an `appid` is found and
the structure is allocated, `notification_install_data` passes
`built_setting` to the insert, disconnects and returns 0. -/
theorem notification_install_data_reaches_insert (w : World) (docPtr : Option xmlDoc)
    (node : xmlNode) (A P : String)
    (hnode : xmlFirstElementChild (xmlDocGetRootElement docPtr) = some node)
    (happ : xmlGetProp node "appid" = some A)
    (hconn : (db_connect w).2 = 0)
    (halloc : (calloc (db_connect w).1).2 ≠ none) :
    notification_install_data w docPtr P =
      ((db_disconnect (db_insert_notification_setting (calloc (db_connect w).1).1
        (some (built_setting zeroed_setting node A P))).1).1, 0) := by
  have hz := calloc_snd _ halloc
  have hc : ¬ (db_connect w).2 < 0 := by omega
  simp only [notification_install_data, hc, if_false, hnode, hz, happ]

/-! ## C1: default record -/

/-- C1: for a manifest whose first element under the root carries `appid = A`
and has no child named `notification`, and for every package id `P`, the record
built by `notification_install_data` is
`(A, "on", "on", "off", "on", P)`, with no setting left unset; once the
connection is open and the structure allocated, the call returns what
`db_insert_notification_setting` does with exactly this record, then
disconnects. -/
theorem install_default_record (w : World) (docPtr : Option xmlDoc) (node : xmlNode)
    (A P : String)
    (hnode : xmlFirstElementChild (xmlDocGetRootElement docPtr) = some node)
    (happ : xmlGetProp node "appid" = some A)
    (hnone : ∀ c ∈ node.children, c.name ≠ "notification")
    (hconn : (db_connect w).2 = 0)
    (halloc : (calloc (db_connect w).1).2 ≠ none) :
    built_setting zeroed_setting node A P =
        { pAppId := some A, pNotification := some "on", pSounds := some "on",
          pContents := some "off", pBadge := some "on", pPkgId := some P,
          pReserved1 := none, pReserved2 := none } ∧
      notification_install_data w docPtr P =
        ((db_disconnect (db_insert_notification_setting (calloc (db_connect w).1).1
          (some { pAppId := some A, pNotification := some "on", pSounds := some "on",
                  pContents := some "off", pBadge := some "on", pPkgId := some P,
                  pReserved1 := none, pReserved2 := none })).1).1, 0) := by
  have hfilter : ∀ sec, List.filter (isSection sec) node.children = [] := by
    intro sec
    rw [List.filter_eq_nil_iff]
    intro c hc
    simp [isSection, hnone c hc]
  have hrec : built_setting zeroed_setting node A P =
      { pAppId := some A, pNotification := some "on", pSounds := some "on",
        pContents := some "off", pBadge := some "on", pPkgId := some P,
        pReserved1 := none, pReserved2 := none } := by
    rw [built_setting_eq]
    simp [lastWins, sectionChildren, hfilter]
  refine ⟨hrec, ?_⟩
  rw [notification_install_data_reaches_insert w docPtr node A P hnode happ hconn halloc, hrec]

theorem install_default_record_witness :
    xmlFirstElementChild (xmlDocGetRootElement (some (manifest "A" [element "label" [] []]))) =
        some (element "app" [("appid", "A")] [element "label" [] []]) ∧
      built_setting zeroed_setting (element "app" [("appid", "A")] [element "label" [] []])
          "A" "P" =
        { pAppId := some "A", pNotification := some "on", pSounds := some "on",
          pContents := some "off", pBadge := some "on", pPkgId := some "P",
          pReserved1 := none, pReserved2 := none } ∧
      (notification_install_data (closedWorld [] []) (some (manifest "A" [element "label" [] []]))
          "P").1.table = some [row "A" "on" "on" "off" "on" "P"] := by
  have h := install_default_record (closedWorld [] [])
    (some (manifest "A" [element "label" [] []]))
    (element "app" [("appid", "A")] [element "label" [] []]) "A" "P" rfl (by decide)
    (by decide) (by decide) (by decide)
  exact ⟨rfl, h.1, by rw [h.2]; decide⟩

/-! ## C2: section routing -/

/-- C2: for every manifest whose first element `node` has an `appid`, and each
of the four sections, the field of the record extracted by
`notification_install_data` is the text content of the last direct child named
`notification` whose `section` attribute is that section, and the default of
the section when there is no such child; a child with another name, or whose
`section` is missing or is none of the four values, changes no field. -/
theorem sections_last_write_wins (node : xmlNode) (A P : String) :
    (built_setting zeroed_setting node A P).pNotification = lastWins node "notification" "on" ∧
    (built_setting zeroed_setting node A P).pSounds = lastWins node "sounds" "on" ∧
    (built_setting zeroed_setting node A P).pContents = lastWins node "contents" "off" ∧
    (built_setting zeroed_setting node A P).pBadge = lastWins node "badge" "on" ∧
    (∀ (s : notification_setting) (c : xmlNode),
      (c.name ≠ "notification" ∨
        xmlGetProp c "section" ∉
          [some "notification", some "sounds", some "contents", some "badge"]) →
      route_section s c = s) ∧
    (∀ (w : World) (docPtr : Option xmlDoc),
      xmlFirstElementChild (xmlDocGetRootElement docPtr) = some node →
      xmlGetProp node "appid" = some A →
      (db_connect w).2 = 0 → (calloc (db_connect w).1).2 ≠ none →
      notification_install_data w docPtr P =
        ((db_disconnect (db_insert_notification_setting (calloc (db_connect w).1).1
          (some (built_setting zeroed_setting node A P))).1).1, 0)) := by
  refine ⟨?_, ?_, ?_, ?_, ?_, fun w docPtr hnode happ hconn halloc =>
    notification_install_data_reaches_insert w docPtr node A P hnode happ hconn halloc⟩
  · rw [built_setting_eq]
  · rw [built_setting_eq]
  · rw [built_setting_eq]
  · rw [built_setting_eq]
  intro s c h
  rcases h with h | h
  · simp [route_section, xmlStrEqual, h]
  · simp only [List.mem_cons, List.mem_singleton, not_or, List.mem_nil_iff, or_false] at h
    obtain ⟨h1, h2, h3, h4⟩ := h
    cases hs : xmlGetProp c "section" with
    | none => simp [route_section, xmlStrEqual, hs]
    | some v =>
      rw [hs] at h1 h2 h3 h4
      simp only [Option.some.injEq] at h1 h2 h3 h4
      simp [route_section, xmlStrEqual, hs, h1, h2, h3, h4]

theorem sections_last_write_wins_witness :
    built_setting zeroed_setting
        (element "app" [("appid", "A")]
          [notificationChild "badge" "off", notificationChild "sounds" "off"]) "A" "P" =
      { pAppId := some "A", pNotification := some "on", pSounds := some "off",
        pContents := some "off", pBadge := some "off", pPkgId := some "P",
        pReserved1 := none, pReserved2 := none } ∧
    (built_setting zeroed_setting
        (element "app" [("appid", "A")]
          [notificationChild "badge" "off", notificationChild "badge" "on"]) "A" "P").pBadge =
      some "on" ∧
    route_section zeroed_setting (notificationChild "vibration" "off") = zeroed_setting ∧
    route_section zeroed_setting (element "label" [("section", "badge")] [text "off"]) =
      zeroed_setting := by
  have h := sections_last_write_wins
    (element "app" [("appid", "A")]
      [notificationChild "badge" "off", notificationChild "badge" "on"]) "A" "P"
  refine ⟨by decide, h.2.2.2.1.trans (by decide), ?_, ?_⟩
  · exact h.2.2.2.2.1 zeroed_setting (notificationChild "vibration" "off") (Or.inr (by decide))
  · exact h.2.2.2.2.1 zeroed_setting (element "label" [("section", "badge")] [text "off"])
      (Or.inl (by decide))

/-! ## C3: invalid manifests -/

/-- C3, as the code has it: when the connection opens and the manifest has no
first element under its root, or that element has no `appid` attribute,
`PKGMGR_PARSER_PLUGIN_INSTALL` and `PKGMGR_PARSER_PLUGIN_UPGRADE` leave the
rows of the table as they were and return `-EINVAL`, except that a first
element whose record cannot be allocated makes them return `-ENOMEM`: the
allocation is checked before the `appid` attribute is read. -/
theorem install_rejects_invalid_manifest (w : World) (docPtr : Option xmlDoc) (P : String)
    (hclosed : w.pHandle = none) (hconn : (db_connect w).2 = 0)
    (hbad : xmlFirstElementChild (xmlDocGetRootElement docPtr) = none ∨
      ∃ node, xmlFirstElementChild (xmlDocGetRootElement docPtr) = some node ∧
        xmlGetProp node "appid" = none) :
    (PKGMGR_PARSER_PLUGIN_INSTALL w docPtr P).2 =
      (if (xmlFirstElementChild (xmlDocGetRootElement docPtr)).isSome ∧
          (calloc (db_connect w).1).2 = none then - ENOMEM else - EINVAL) ∧
    rowsOf (PKGMGR_PARSER_PLUGIN_INSTALL w docPtr P).1.table = rowsOf w.table ∧
    (PKGMGR_PARSER_PLUGIN_UPGRADE w docPtr P).2 =
      (if (xmlFirstElementChild (xmlDocGetRootElement docPtr)).isSome ∧
          (calloc (db_connect w).1).2 = none then - ENOMEM else - EINVAL) ∧
    rowsOf (PKGMGR_PARSER_PLUGIN_UPGRADE w docPtr P).1.table = rowsOf w.table := by
  obtain ⟨hrows, hset⟩ := db_connect_settled w hclosed hconn
  have hc : ¬ (db_connect w).2 < 0 := by omega
  have hskip : rowsOf (db_disconnect (skip 1 (db_connect w).1)).1.table = rowsOf w.table := by
    rw [db_disconnect_rows (skip 1 (db_connect w).1) (Settled_of_same _ _ hset rfl id)]
    exact hrows
  have key : (notification_install_data w docPtr P).2 =
        (if (xmlFirstElementChild (xmlDocGetRootElement docPtr)).isSome ∧
            (calloc (db_connect w).1).2 = none then - ENOMEM else - EINVAL) ∧
      rowsOf (notification_install_data w docPtr P).1.table = rowsOf w.table := by
    rcases hbad with hnone | ⟨node, hnode, happ⟩
    · simp only [notification_install_data, hc, if_false, hnone]
      exact ⟨by simp, (db_disconnect_rows _ hset).trans hrows⟩
    · cases hcal : (calloc (db_connect w).1).2 with
      | none =>
        simp only [notification_install_data, hc, if_false, hnode, hcal, calloc_fst]
        exact ⟨by simp, hskip⟩
      | some s0 =>
        simp only [notification_install_data, hc, if_false, hnode, hcal, happ, calloc_fst]
        exact ⟨by simp, hskip⟩
  exact ⟨key.1, key.2, key.1, key.2⟩

theorem install_rejects_invalid_manifest_witness :
    (db_connect (closedWorld [row "B" "on" "on" "off" "on" "Q"] [])).2 = 0 ∧
    (PKGMGR_PARSER_PLUGIN_INSTALL (closedWorld [row "B" "on" "on" "off" "on" "Q"] [])
        (some { children := [element "manifest" [] [element "app" [] []]] }) "P").2 = - EINVAL ∧
    rowsOf (PKGMGR_PARSER_PLUGIN_INSTALL (closedWorld [row "B" "on" "on" "off" "on" "Q"] [])
        (some { children := [element "manifest" [] [element "app" [] []]] }) "P").1.table =
      [row "B" "on" "on" "off" "on" "Q"] ∧
    (PKGMGR_PARSER_PLUGIN_UPGRADE (closedWorld [row "B" "on" "on" "off" "on" "Q"] [])
        (some { children := [element "manifest" [] [text "x"]] }) "P").2 = - EINVAL := by
  have h1 := install_rejects_invalid_manifest (closedWorld [row "B" "on" "on" "off" "on" "Q"] [])
    (some { children := [element "manifest" [] [element "app" [] []]] }) "P" rfl (by decide)
    (Or.inr ⟨element "app" [] [], rfl, by decide⟩)
  have h2 := install_rejects_invalid_manifest (closedWorld [row "B" "on" "on" "off" "on" "Q"] [])
    (some { children := [element "manifest" [] [text "x"]] }) "P" rfl (by decide)
    (Or.inl rfl)
  exact ⟨by decide, h1.1.trans (by decide), h1.2.1, h2.2.2.1.trans (by decide)⟩

/-- C3 as stated fails: with the connection open and a first element without
`appid`, a failed allocation of the record makes the hook return `-ENOMEM`,
not `-EINVAL`. -/
theorem install_without_appid_may_return_enomem :
    (db_connect (closedWorld [] [false, false, true])).2 = 0 ∧
    xmlGetProp (element "app" [] []) "appid" = none ∧
    (PKGMGR_PARSER_PLUGIN_INSTALL (closedWorld [] [false, false, true])
        (some { children := [element "manifest" [] [element "app" [] []]] }) "P").2 = - ENOMEM ∧
    (PKGMGR_PARSER_PLUGIN_INSTALL (closedWorld [] [false, false, true])
        (some { children := [element "manifest" [] [element "app" [] []]] }) "P").2 ≠ - EINVAL := by
  decide

/-! ## C4: a fresh application is inserted -/

/-- C4: on a store without a row for `X`, when the connection, the allocation
and the insert statement succeed, `PKGMGR_PARSER_PLUGIN_INSTALL` of a manifest
declaring `appid = X` returns 0 and appends one row to the rows that were
there: the row of `X`, carrying the extracted settings (defaults applied),
`pkgid = P` and two null reserved columns; it is the only row for `X`. -/
theorem install_inserts_extracted_row (w : World) (docPtr : Option xmlDoc) (node : xmlNode)
    (X P : String)
    (hclosed : w.pHandle = none) (hreg : w.isReg = true)
    (hok : callsSucceed (connectCalls w.table + 9) w = true)
    (hnode : xmlFirstElementChild (xmlDocGetRootElement docPtr) = some node)
    (happ : xmlGetProp node "appid" = some X)
    (hnew : ∀ r ∈ rowsOf w.table, r.appid ≠ X) :
    (PKGMGR_PARSER_PLUGIN_INSTALL w docPtr P).2 = 0 ∧
    rowsOf (PKGMGR_PARSER_PLUGIN_INSTALL w docPtr P).1.table =
      rowsOf w.table ++
        [{ appid := X,
           notification := lastWins node "notification" "on",
           sounds := lastWins node "sounds" "on",
           contents := lastWins node "contents" "off",
           badge := lastWins node "badge" "on",
           pkgid := some P, reserved1 := none, reserved2 := none }] ∧
    (rowsOf (PKGMGR_PARSER_PLUGIN_INSTALL w docPtr P).1.table).filter (fun r => r.appid = X) =
      [{ appid := X,
         notification := lastWins node "notification" "on",
         sounds := lastWins node "sounds" "on",
         contents := lastWins node "contents" "off",
         badge := lastWins node "badge" "on",
         pkgid := some P, reserved1 := none, reserved2 := none }] := by
  have hk : callsSucceed (connectCalls w.table) w = true :=
    callsSucceed_mono _ _ w (by omega) hok
  have hconn := db_connect_ok w hclosed hreg hk
  have h9 : callsSucceed 9 (db_connect w).1 = true := by
    rw [hconn]
    exact (callsSucceed_congr 9 _ (skip (connectCalls w.table) w) rfl).trans
      (callsSucceed_skip _ _ w hok)
  have hcal : (calloc (db_connect w).1).2 = some zeroed_setting := by
    have := callsSucceed_head 9 _ (by omega) h9
    simp [calloc, this]
  have h8 : callsSucceed 8 (skip 1 (db_connect w).1) = true := callsSucceed_skip 1 8 _ h9
  have hins := db_insert_ok (skip 1 (db_connect w).1)
    (built_setting zeroed_setting node X P) (rowsOf w.table) X
    (by rw [hconn]; simp) (by rw [hconn]; rfl) (by rw [built_setting_eq]) hnew h8
  have hc : ¬ (db_connect w).2 < 0 := by rw [hconn]; simp
  have hfinal : rowsOf (PKGMGR_PARSER_PLUGIN_INSTALL w docPtr P).1.table =
      rowsOf w.table ++ [rowOfSetting X (built_setting zeroed_setting node X P)] := by
    simp only [PKGMGR_PARSER_PLUGIN_INSTALL, notification_install_data, hc, if_false, hnode,
      hcal, happ, calloc_fst, hins]
    rw [db_disconnect_table _ { txn := none } (by rw [hconn]; rfl) rfl]
    rfl
  have hrow : rowOfSetting X (built_setting zeroed_setting node X P) =
      { appid := X,
        notification := lastWins node "notification" "on",
        sounds := lastWins node "sounds" "on",
        contents := lastWins node "contents" "off",
        badge := lastWins node "badge" "on",
        pkgid := some P, reserved1 := none, reserved2 := none } := by
    rw [built_setting_eq]; rfl
  rw [hrow] at hfinal
  refine ⟨?_, hfinal, ?_⟩
  · simp only [PKGMGR_PARSER_PLUGIN_INSTALL, notification_install_data, hc, if_false, hnode,
      hcal, happ]
  · rw [hfinal, List.filter_append]
    have hnil : List.filter (fun r => decide (r.appid = X)) (rowsOf w.table) = [] := by
      rw [List.filter_eq_nil_iff]
      intro r hr
      simpa using hnew r hr
    simp [hnil]

theorem install_inserts_extracted_row_witness :
    callsSucceed (connectCalls (some [row "B" "on" "on" "off" "on" "Q"]) + 9)
        (closedWorld [row "B" "on" "on" "off" "on" "Q"] []) = true ∧
    rowsOf (PKGMGR_PARSER_PLUGIN_INSTALL (closedWorld [row "B" "on" "on" "off" "on" "Q"] [])
        (some (manifest "X" [notificationChild "badge" "off"])) "P").1.table =
      [row "B" "on" "on" "off" "on" "Q", row "X" "on" "on" "off" "off" "P"] := by
  have h := install_inserts_extracted_row (closedWorld [row "B" "on" "on" "off" "on" "Q"] [])
    (some (manifest "X" [notificationChild "badge" "off"]))
    (element "app" [("appid", "X")] [notificationChild "badge" "off"]) "X" "P"
    rfl rfl (by decide) rfl (by decide) (by decide)
  exact ⟨by decide, h.2.1.trans (by decide)⟩

/-! ## C5: a second insert for the same application -/

/-- C5, as the code has it: on a store that holds a row for `X` already,
`PKGMGR_PARSER_PLUGIN_INSTALL` and `PKGMGR_PARSER_PLUGIN_UPGRADE` of a manifest
declaring `appid = X` leave the table as it was, under every script: the store
still holds exactly one row for `X`, the prior one, because the plain `INSERT`
fails on the primary key instead of replacing the row. -/
theorem install_keeps_existing_row (w : World) (docPtr : Option xmlDoc) (node : xmlNode)
    (X P : String)
    (hclosed : w.pHandle = none) (hpk : PrimaryKey w.table)
    (hnode : xmlFirstElementChild (xmlDocGetRootElement docPtr) = some node)
    (happ : xmlGetProp node "appid" = some X)
    (hold : ∃ r ∈ rowsOf w.table, r.appid = X) :
    (PKGMGR_PARSER_PLUGIN_INSTALL w docPtr P).1.table = w.table ∧
    (PKGMGR_PARSER_PLUGIN_UPGRADE w docPtr P).1.table = w.table ∧
    ((rowsOf (PKGMGR_PARSER_PLUGIN_UPGRADE w docPtr P).1.table).filter
      (fun r => r.appid = X)).length = 1 := by
  obtain ⟨r0, hr0, hx⟩ := hold
  obtain ⟨rows, ht⟩ : ∃ rows, w.table = some rows := by
    cases hw : w.table with
    | none => simp [rowsOf, hw] at hr0
    | some rows => exact ⟨rows, rfl⟩
  have hrows : rowsOf w.table = rows := by simp [rowsOf, ht]
  have key : (notification_install_data w docPtr P).1.table = w.table := by
    rcases db_connect_inv w hclosed with ⟨hneg, _, htab⟩ | ⟨hzero, _, db, hdb, h | ⟨h1, _⟩⟩
    · simp only [notification_install_data, hneg, if_true]
      exact htab
    · have hc : ¬ (db_connect w).2 < 0 := by omega
      have htab : (db_connect w).1.table = w.table := h.2 (by simp [ht])
      simp only [notification_install_data, hc, if_false, hnode, calloc_fst]
      cases hcal : (calloc (db_connect w).1).2 with
      | none =>
        simp only
        rw [db_disconnect_table (skip 1 (db_connect w).1) db hdb h.1]
        exact htab
      | some s0 =>
        simp only [happ]
        have hs0 : s0 = zeroed_setting := by
          have := calloc_snd (db_connect w).1 (by simp [hcal])
          rw [hcal] at this
          exact Option.some.inj this
        obtain ⟨k1, k2⟩ := db_insert_conflict (skip 1 (db_connect w).1)
          (built_setting s0 node X P) rows X (by simp [htab, ht])
          (by rw [hs0, built_setting_eq]) ⟨r0, by rw [← hrows]; exact hr0, hx⟩
        rw [db_disconnect_table _ db (k2.trans hdb) h.1, k1]
        exact htab
    · rw [h1] at hr0
      simp at hr0
  have hone : ((rowsOf w.table).filter (fun r => r.appid = X)).length = 1 := by
    have hle := filter_appid_length_le_one w.table X hpk
    have hpos : 0 < ((rowsOf w.table).filter (fun r => r.appid = X)).length := by
      apply List.length_pos_of_mem (a := r0)
      simp [List.mem_filter, hr0, hx]
    omega
  refine ⟨key, key, ?_⟩
  simp only [PKGMGR_PARSER_PLUGIN_UPGRADE, key]
  exact hone

theorem install_keeps_existing_row_witness :
    PrimaryKey (some [row "X" "off" "off" "on" "off" "P"]) ∧
    (PKGMGR_PARSER_PLUGIN_UPGRADE (closedWorld [row "X" "off" "off" "on" "off" "P"] [])
        (some (manifest "X" [])) "P").1.table = some [row "X" "off" "off" "on" "off" "P"] := by
  have h := install_keeps_existing_row (closedWorld [row "X" "off" "off" "on" "off" "P"] [])
    (some (manifest "X" [])) (element "app" [("appid", "X")] []) "X" "P"
    rfl (by decide) rfl (by decide) ⟨row "X" "off" "off" "on" "off" "P", by decide, rfl⟩
  exact ⟨by decide, h.2.1⟩

/-- C5 as stated fails: after an upgrade over an existing row for `X`, the
row of `X` is not the record freshly extracted from the manifest. -/
theorem upgrade_does_not_overwrite :
    rowsOf (PKGMGR_PARSER_PLUGIN_UPGRADE (closedWorld [row "X" "off" "off" "on" "off" "P"] [])
        (some (manifest "X" [])) "P").1.table ≠
      [rowOfSetting "X"
        (built_setting zeroed_setting (element "app" [("appid", "X")] []) "X" "P")] := by
  decide

/-! ## C6: status of a failed insert -/

/-- C6 at its failing inputs: the insert for an application that has a row
already fails with `-EIO`, and so does an insert whose prepare is scripted to
fail; in both cases `PKGMGR_PARSER_PLUGIN_INSTALL` and
`PKGMGR_PARSER_PLUGIN_UPGRADE` still return 0 and no row is written. -/
theorem install_returns_zero_on_failed_insert :
    (db_insert_notification_setting
        { pHandle := some { txn := none }, table := some [row "X" "off" "off" "on" "off" "P"],
          isReg := true, faults := [] }
        (some (built_setting zeroed_setting (element "app" [("appid", "X")] []) "X" "P"))).2 =
      - EIO ∧
    PKGMGR_PARSER_PLUGIN_INSTALL (closedWorld [row "X" "off" "off" "on" "off" "P"] [])
        (some (manifest "X" [])) "P" =
      (closedWorld [row "X" "off" "off" "on" "off" "P"] [], 0) ∧
    PKGMGR_PARSER_PLUGIN_UPGRADE (closedWorld [] [false, false, false, true])
        (some (manifest "X" [])) "P" =
      (closedWorld [] [], 0) := by
  decide

/-! ## C7: pre-upgrade cleanup -/

/-- C7: for every valid store and package id `P`, when the connection and the
`COUNT` statement succeed, and the `DELETE` statement too in case it runs,
`PKGMGR_PARSER_PLUGIN_PRE_UPGRADE` returns 0 and leaves exactly the rows whose
`pkgid` is not `P`, each as it was, so no row of `P` remains. When the count
is zero the rows are unchanged and no library call follows the `COUNT`
statement: the bulk delete is not run; when it is positive the three calls of
the bulk delete follow. -/
theorem pre_upgrade_deletes_package_rows (w : World) (P : String)
    (hclosed : w.pHandle = none) (hreg : w.isReg = true) (hvalid : ValidStore w.table)
    (hok : callsSucceed (connectCalls w.table + 3) w = true)
    (hdel : 0 < countByPkg P (rowsOf w.table) →
      callsSucceed (connectCalls w.table + 6) w = true) :
    (PKGMGR_PARSER_PLUGIN_PRE_UPGRADE w P).2 = 0 ∧
    rowsOf (PKGMGR_PARSER_PLUGIN_PRE_UPGRADE w P).1.table =
      (rowsOf w.table).filter (fun r => r.pkgid ≠ some P) ∧
    countByPkg P (rowsOf (PKGMGR_PARSER_PLUGIN_PRE_UPGRADE w P).1.table) = 0 ∧
    (countByPkg P (rowsOf w.table) = 0 →
      rowsOf (PKGMGR_PARSER_PLUGIN_PRE_UPGRADE w P).1.table = rowsOf w.table ∧
      (PKGMGR_PARSER_PLUGIN_PRE_UPGRADE w P).1.faults =
        w.faults.drop (connectCalls w.table + 3)) ∧
    (0 < countByPkg P (rowsOf w.table) →
      (PKGMGR_PARSER_PLUGIN_PRE_UPGRADE w P).1.faults =
        w.faults.drop (connectCalls w.table + 6)) := by
  have hpk : PrimaryKey w.table := hvalid.1
  have hcount : countByPkg P (rowsOf w.table) < 2 ^ 31 :=
    lt_of_le_of_lt (List.length_filter_le _ _) hvalid.2
  have hk : callsSucceed (connectCalls w.table) w = true :=
    callsSucceed_mono _ _ w (by omega) hok
  have hconn := db_connect_ok w hclosed hreg hk
  generalize hwc : (db_connect w).1 = wc at *
  have hwc2 : (db_connect w).2 = 0 := by rw [hconn]
  have hwcH : wc.pHandle = some { txn := none } := by rw [← hwc, hconn]
  have hwcT : wc.table = some (rowsOf w.table) := by rw [← hwc, hconn]
  have hwcF : wc.faults = w.faults.drop (connectCalls w.table) := by rw [← hwc, hconn]; rfl
  have h3 : callsSucceed 3 wc = true :=
    (callsSucceed_congr 3 wc (skip (connectCalls w.table) w) hwcF).trans
      (callsSucceed_skip _ _ w hok)
  obtain ⟨e1, e2, e3⟩ := one_param_statement_ok wc .COUNT_BY_PKGID (some P) rfl
    (by simp [hwcH]) (by simp [hwcT]) h3
  have hrun : runStatement (skip 3 wc)
      { query := .COUNT_BY_PKGID, bindings := [(1, some P)], column0 := 0 } =
      (skip 3 wc, SQLITE_ROW,
        { query := .COUNT_BY_PKGID, bindings := [(1, some P)],
          column0 := (countByPkg P (rowsOf w.table) : Int) }) := by
    simp [runStatement, hwcH, hwcT, sqlite3_stmt.param, List.lookup, sqlEq_some, countByPkg]
  have hcol : sqlite3_column_int
      { query := .COUNT_BY_PKGID, bindings := [(1, some P)],
        column0 := (countByPkg P (rowsOf w.table) : Int) } =
      (countByPkg P (rowsOf w.table) : Int) := by
    simp only [sqlite3_column_int]
    omega
  have hfilterP : ∀ l : List Row,
      countByPkg P (l.filter (fun r => r.pkgid ≠ some P)) = 0 := by
    intro l
    simp [countByPkg, List.filter_filter]
  have hc : ¬ (db_connect w).2 < 0 := by omega
  have hstep : PKGMGR_PARSER_PLUGIN_PRE_UPGRADE w P =
      if (countByPkg P (rowsOf w.table) : Int) > 0 then
        ((db_disconnect (notification_delete_data (skip 3 wc) (some P)).1).1,
          (notification_delete_data (skip 3 wc) (some P)).2)
      else ((db_disconnect (skip 3 wc)).1, 0) := by
    simp only [PKGMGR_PARSER_PLUGIN_PRE_UPGRADE, hc, if_false, hwc, e1, e2, e3, hrun, hcol,
      ne_eq, not_true_eq_false]
  by_cases hpos : 0 < countByPkg P (rowsOf w.table)
  · have hposI : (countByPkg P (rowsOf w.table) : Int) > 0 := by omega
    have h6 : callsSucceed 6 wc = true :=
      (callsSucceed_congr 6 wc (skip (connectCalls w.table) w) hwcF).trans
        (callsSucceed_skip _ _ w (hdel hpos))
    have hd := notification_delete_data_ok (skip 3 wc) (some P) (rowsOf w.table)
      (by simp [hwcH]) (by simp [hwcT]) (callsSucceed_skip 3 3 wc h6)
    rw [delete_by_pkgid_rows _ P (by simpa [PrimaryKey, rowsOf] using hpk)] at hd
    rw [hstep, if_pos hposI, hd]
    have htab : (db_disconnect
        { skip 3 (skip 3 wc) with
          table := some ((rowsOf w.table).filter (fun r => r.pkgid ≠ some P)) }).1.table =
        some ((rowsOf w.table).filter (fun r => r.pkgid ≠ some P)) :=
      db_disconnect_table _ { txn := none } hwcH rfl
    refine ⟨rfl, ?_, ?_, ?_, ?_⟩
    · show rowsOf (db_disconnect _).1.table = _
      rw [htab]; rfl
    · show countByPkg P (rowsOf (db_disconnect _).1.table) = 0
      rw [htab]
      exact hfilterP _
    · intro h0; omega
    · intro _
      show (db_disconnect _).1.faults = _
      rw [db_disconnect_faults]
      simp only [skip, hwcF, List.drop_drop]
  · have hzero : countByPkg P (rowsOf w.table) = 0 := by omega
    have hposI : ¬ (countByPkg P (rowsOf w.table) : Int) > 0 := by omega
    have hsame : (rowsOf w.table).filter (fun r => r.pkgid ≠ some P) = rowsOf w.table := by
      rw [List.filter_eq_self]
      intro r hr
      have hnil : (rowsOf w.table).filter (fun r => r.pkgid = some P) = [] :=
        List.length_eq_zero.1 hzero
      have := (List.filter_eq_nil_iff.1 hnil) r hr
      simpa using this
    have htab : (db_disconnect (skip 3 wc)).1.table = some (rowsOf w.table) :=
      (db_disconnect_table (skip 3 wc) { txn := none } hwcH rfl).trans hwcT
    rw [hstep, if_neg hposI]
    refine ⟨rfl, ?_, ?_, ?_, ?_⟩
    · show rowsOf (db_disconnect _).1.table = _
      rw [htab]
      exact hsame.symm
    · show countByPkg P (rowsOf (db_disconnect _).1.table) = 0
      rw [htab]
      exact hzero
    · intro _
      refine ⟨?_, ?_⟩
      · show rowsOf (db_disconnect _).1.table = _
        rw [htab]; rfl
      · show (db_disconnect _).1.faults = _
        rw [db_disconnect_faults]
        simp only [skip, hwcF, List.drop_drop]
    · intro h; omega

theorem pre_upgrade_deletes_package_rows_witness :
    countByPkg "P"
        [row "a1" "on" "on" "off" "on" "P", row "b" "on" "on" "off" "on" "Q",
          row "a2" "on" "on" "off" "on" "P", row "a3" "on" "on" "off" "on" "P"] = 3 ∧
    ValidStore (some
        [row "a1" "on" "on" "off" "on" "P", row "b" "on" "on" "off" "on" "Q",
          row "a2" "on" "on" "off" "on" "P", row "a3" "on" "on" "off" "on" "P"]) ∧
    (PKGMGR_PARSER_PLUGIN_PRE_UPGRADE (closedWorld
        [row "a1" "on" "on" "off" "on" "P", row "b" "on" "on" "off" "on" "Q",
          row "a2" "on" "on" "off" "on" "P", row "a3" "on" "on" "off" "on" "P"] []) "P").2 = 0 ∧
    rowsOf (PKGMGR_PARSER_PLUGIN_PRE_UPGRADE (closedWorld
        [row "a1" "on" "on" "off" "on" "P", row "b" "on" "on" "off" "on" "Q",
          row "a2" "on" "on" "off" "on" "P", row "a3" "on" "on" "off" "on" "P"] []) "P").1.table =
      [row "b" "on" "on" "off" "on" "Q"] := by
  have h := pre_upgrade_deletes_package_rows (closedWorld
    [row "a1" "on" "on" "off" "on" "P", row "b" "on" "on" "off" "on" "Q",
      row "a2" "on" "on" "off" "on" "P", row "a3" "on" "on" "off" "on" "P"] []) "P"
    rfl rfl (by decide) (by decide) (fun _ => by decide)
  exact ⟨by decide, by decide, h.1, h.2.1.trans (by decide)⟩

/-! ## C8: deleting one application -/

/-- C8: on an open connection over a store that respects its primary key, when
the statement prepares, binds and steps without error,
`db_delete_notification_setting (X)` returns 0 and leaves the rows whose
`appid` is not `X`, each as it was; at most one row is gone, and when no row
has `appid = X` the table is exactly what it was. -/
theorem delete_by_appid (w : World) (X : String) (rows : List Row)
    (hh : w.pHandle ≠ none) (ht : w.table = some rows) (hpk : PrimaryKey w.table)
    (hok : callsSucceed 3 w = true) :
    (db_delete_notification_setting w (some X)).2 = 0 ∧
    (db_delete_notification_setting w (some X)).1.table =
      some (rows.filter (fun r => r.appid ≠ X)) ∧
    rows.length ≤ (rows.filter (fun r => r.appid ≠ X)).length + 1 ∧
    ((∀ r ∈ rows, r.appid ≠ X) → (db_delete_notification_setting w (some X)).1.table = w.table) := by
  have hd := db_delete_ok w (some X) rows hh ht hok
  have hpred : rows.filter (fun r => !sqlEq (some r.appid) (some X)) =
      rows.filter (fun r => r.appid ≠ X) := by
    apply List.filter_congr
    intro r _
    by_cases h : r.appid = X <;> simp [sqlEq, h]
  rw [hpred] at hd
  rw [hd]
  refine ⟨rfl, rfl, ?_, ?_⟩
  · have h1 := filter_appid_length_le_one w.table X hpk
    simp only [ht, rowsOf, Option.getD_some] at h1
    have h2 := List.length_eq_countP_add_countP (p := fun r : Row => decide (r.appid = X)) rows
    rw [List.countP_eq_length_filter, List.countP_eq_length_filter] at h2
    have h3 : List.filter (fun a => decide ¬(decide (a.appid = X)) = true) rows =
        List.filter (fun r => decide (r.appid ≠ X)) rows := by
      apply List.filter_congr
      intro r _
      simp
    rw [h3] at h2
    omega
  · intro hnone
    simp only [ht]
    congr 1
    rw [List.filter_eq_self]
    intro r hr
    simpa using hnone r hr

theorem delete_by_appid_witness :
    callsSucceed 3
        { pHandle := some { txn := none },
          table := some [row "a" "on" "on" "off" "on" "P", row "b" "on" "on" "off" "on" "P"],
          isReg := true, faults := [] } = true ∧
    (db_delete_notification_setting
        { pHandle := some { txn := none },
          table := some [row "a" "on" "on" "off" "on" "P", row "b" "on" "on" "off" "on" "P"],
          isReg := true, faults := [] } (some "a")).1.table =
      some [row "b" "on" "on" "off" "on" "P"] ∧
    (db_delete_notification_setting
        { pHandle := some { txn := none },
          table := some [row "a" "on" "on" "off" "on" "P", row "b" "on" "on" "off" "on" "P"],
          isReg := true, faults := [] } (some "zz")).1.table =
      some [row "a" "on" "on" "off" "on" "P", row "b" "on" "on" "off" "on" "P"] := by
  have h1 := delete_by_appid
    { pHandle := some { txn := none },
      table := some [row "a" "on" "on" "off" "on" "P", row "b" "on" "on" "off" "on" "P"],
      isReg := true, faults := [] } "a"
    [row "a" "on" "on" "off" "on" "P", row "b" "on" "on" "off" "on" "P"]
    (by decide) rfl (by decide) (by decide)
  have h2 := delete_by_appid
    { pHandle := some { txn := none },
      table := some [row "a" "on" "on" "off" "on" "P", row "b" "on" "on" "off" "on" "P"],
      isReg := true, faults := [] } "zz"
    [row "a" "on" "on" "off" "on" "P", row "b" "on" "on" "off" "on" "P"]
    (by decide) rfl (by decide) (by decide)
  exact ⟨by decide, h1.2.1.trans (by decide), h2.2.2.2 (by decide)⟩

/-! ## C9: uninstall is best effort -/

/-- C9: `app_func` returns 0 whatever the delete returned, so once the
connection is open `PKGMGR_PARSER_PLUGIN_UNINSTALL` runs
`db_delete_notification_setting` for every application id the host
enumerates, failed deletes included. Afterwards no row is left for an
application id whose delete returned 0, and the rows whose `appid` is not in
the list are the ones from before the call. -/
theorem uninstall_deletes_every_app (host : Host) (w : World) (docPtr : Option xmlDoc)
    (P : String) (handle : pkgmgrinfo_pkginfo)
    (hclosed : w.pHandle = none) (hhost : host P = some handle)
    (hconn : (db_connect w).2 = 0) :
    (∀ (w1 : World) (a : String), (app_func w1 a).2 = 0) ∧
    (PKGMGR_PARSER_PLUGIN_UNINSTALL host w docPtr P).1 =
      (db_disconnect (deleteAll handle.appids (db_connect w).1)).1 ∧
    (∀ (pre post : List String) (a : String), handle.appids = pre ++ a :: post →
      (db_delete_notification_setting (deleteAll pre (db_connect w).1) (some a)).2 = 0 →
      ∀ r ∈ rowsOf (PKGMGR_PARSER_PLUGIN_UNINSTALL host w docPtr P).1.table, r.appid ≠ a) ∧
    (rowsOf (PKGMGR_PARSER_PLUGIN_UNINSTALL host w docPtr P).1.table).filter
        (fun r => r.appid ∉ handle.appids) =
      (rowsOf w.table).filter (fun r => r.appid ∉ handle.appids) := by
  obtain ⟨hrows, hset⟩ := db_connect_settled w hclosed hconn
  have hc : ¬ (db_connect w).2 < 0 := by omega
  have hfinal : (PKGMGR_PARSER_PLUGIN_UNINSTALL host w docPtr P).1 =
      (db_disconnect (deleteAll handle.appids (db_connect w).1)).1 := by
    simp only [PKGMGR_PARSER_PLUGIN_UNINSTALL, hhost, hc, if_false,
      pkgmgrinfo_appinfo_get_list, appinfo_loop_app_func]
  have hshrink := deleteAll_shrinks handle.appids handle.appids (fun _ h => h) (db_connect w).1
  have hset2 : Settled (deleteAll handle.appids (db_connect w).1) := by
    apply Settled_of_same _ _ hset hshrink.1
    intro hnil
    apply List.eq_nil_iff_forall_not_mem.2
    intro r hr
    have := hshrink.2.1 r hr
    rw [hnil] at this
    simp at this
  have hrowsF : rowsOf (PKGMGR_PARSER_PLUGIN_UNINSTALL host w docPtr P).1.table =
      rowsOf (deleteAll handle.appids (db_connect w).1).table := by
    rw [hfinal]
    exact db_disconnect_rows _ hset2
  refine ⟨fun _ _ => rfl, hfinal, ?_, ?_⟩
  · intro pre post a hsplit hzero r hr
    rw [hrowsF, hsplit, deleteAll_append, deleteAll_cons] at hr
    have hpost := deleteAll_shrinks post post (fun _ h => h)
      (db_delete_notification_setting (deleteAll pre (db_connect w).1) (some a)).1
    have hr2 := hpost.2.1 r hr
    obtain ⟨_, ⟨hne, _⟩ | ⟨_, rows, _, htab⟩⟩ :=
      db_delete_effect (deleteAll pre (db_connect w).1) a
    · exact absurd hzero hne
    · rw [htab] at hr2
      simp only [rowsOf, Option.getD_some, List.mem_filter, decide_eq_true_eq] at hr2
      exact hr2.2
  · rw [hrowsF, hshrink.2.2, hrows]

theorem uninstall_deletes_every_app_witness :
    (db_delete_notification_setting
        (db_connect (closedWorld
          [row "a1" "on" "on" "off" "on" "P", row "a2" "on" "on" "off" "on" "P",
            row "b" "on" "on" "off" "on" "Q"] [false, false, true])).1 (some "a1")).2 = - EIO ∧
    rowsOf (PKGMGR_PARSER_PLUGIN_UNINSTALL
        (fun _ => some { appids := ["a1", "a2"], list_ret := 0 })
        (closedWorld
          [row "a1" "on" "on" "off" "on" "P", row "a2" "on" "on" "off" "on" "P",
            row "b" "on" "on" "off" "on" "Q"] [false, false, true])
        none "P").1.table =
      [row "a1" "on" "on" "off" "on" "P", row "b" "on" "on" "off" "on" "Q"] ∧
    ∀ r ∈ rowsOf (PKGMGR_PARSER_PLUGIN_UNINSTALL
        (fun _ => some { appids := ["a1", "a2"], list_ret := 0 })
        (closedWorld
          [row "a1" "on" "on" "off" "on" "P", row "a2" "on" "on" "off" "on" "P",
            row "b" "on" "on" "off" "on" "Q"] [false, false, true])
        none "P").1.table, r.appid ≠ "a2" := by
  have h := uninstall_deletes_every_app
    (fun _ => some { appids := ["a1", "a2"], list_ret := 0 })
    (closedWorld
      [row "a1" "on" "on" "off" "on" "P", row "a2" "on" "on" "off" "on" "P",
        row "b" "on" "on" "off" "on" "Q"] [false, false, true])
    none "P" { appids := ["a1", "a2"], list_ret := 0 } rfl rfl (by decide)
  exact ⟨by decide, by rw [h.2.1]; decide, h.2.2.1 ["a1"] [] "a2" rfl (by decide)⟩

/-! ## C10: the handle after a hook -/

/-- C10 at its failing input: when the connection opens and the prepare of the
`COUNT` statement fails, `PKGMGR_PARSER_PLUGIN_PRE_UPGRADE` returns `-EIO`
through the early return that skips `db_disconnect`, and the global handle is
still open when the hook returns. -/
theorem pre_upgrade_leaves_handle_open :
    (closedWorld [] [false, false, true]).pHandle = none ∧
    (db_connect (closedWorld [] [false, false, true])).2 = 0 ∧
    (PKGMGR_PARSER_PLUGIN_PRE_UPGRADE (closedWorld [] [false, false, true]) "P").2 = - EIO ∧
    (PKGMGR_PARSER_PLUGIN_PRE_UPGRADE (closedWorld [] [false, false, true]) "P").1.pHandle =
      some { txn := none } := by
  decide

end NotificationParser
